import Mathlib

/-!
Verification of the task-lifecycle core of the agent-orchestrator API.

This file shallowly embeds the worker-side task pipeline of the repository:
the Celery worker entry (`app/worker/tasks.py`), the task service
(`app/services/task_service.py`), the task repository
(`app/db/repositories/tasks_repo.py`), the peer-agent router
(`app/agents/peer_agent.py`), the content and code handlers
(`app/agents/content_agent.py`, `app/agents/code_agent.py`), the
orchestration service (`app/services/orchestration_service.py`) and the
session service (`app/services/session_service.py`).

Modelling conventions:
- Python coroutines are modelled as state-passing functions over a `World`
  record holding the durable stores (tasks, agent runs, messages, sessions)
  and the list of successfully published events.
- External collaborators (the Model Service, the Tavily search provider,
  the Redis publish transport, and the stdlib `json.loads`) are modelled by
  an `Env` record of oracles; the Model Service and publish oracles are
  indexed by call counters threaded through the `World`.
- The durable repositories (Mongo) are modelled as reliable in-memory
  stores: a repository call itself does not raise, matching the spec's
  scoping of the persistence driver's wire protocol as an external
  collaborator. "update" on an absent id updates nothing and reads back
  `none`, exactly as `update_one` + `find_one` behave.
- Exceptions are modelled with `Except PyErr`; `PyErr` carries enough
  structure to reproduce the `except UnknownTaskTypeError` /
  `except Exception` discrimination and the `exc.__class__.__name__` and
  `str(exc)` values used by the worker.
- `datetime` values are modelled by a `Nat` clock threaded through the
  world; each `utc_now()` call ticks the clock.
- Machine floats (`confidence`) are modelled by `ℚ`; the comparisons the
  code performs (`< 0.6`) agree with the rational order on every decimal
  literal involved in the claims.
-/

namespace AOrch

/-- Task lifecycle status, from `app/models/domain/task.py` (`TaskStatus`). -/
inductive TaskStatus where
  | queued
  | processing
  | completed
  | failed
deriving DecidableEq, Repr

/-- String value of a status, as in the Python `str`-enum (`.value`). -/
def TaskStatus.value : TaskStatus → String
  | .queued => "queued"
  | .processing => "processing"
  | .completed => "completed"
  | .failed => "failed"

/-- Citation value, from `app/models/domain/task.py` (`Citation`). -/
structure Citation where
  source : String
  title : Option String
  url : Option String
deriving DecidableEq, Repr

/-- Structured task error, from `app/models/domain/task.py` (`TaskErrorInfo`). -/
structure TaskErrorInfo where
  type : Option String
  message : Option String
  stack : Option String
deriving DecidableEq, Repr

/-- Task result, from `app/models/domain/task.py` (`TaskResult`). -/
structure TaskResult where
  summary : Option String
  raw_output : Option String
  code_language : Option String
  citations : List Citation
deriving DecidableEq, Repr

/-- Task cost accounting, from `app/models/domain/task.py` (`TaskCost`).
`usd_estimate` is `Optional[float]` in the source and is only ever set to
`None` on the verified paths; it is modelled as `Option ℚ`. -/
structure TaskCost where
  prompt_tokens : Option Int
  completion_tokens : Option Int
  total_tokens : Option Int
  usd_estimate : Option ℚ
deriving DecidableEq, Repr

/-- Request metadata, from `app/models/domain/task.py` (`TaskMetadata`). -/
structure TaskMetadata where
  ip : Option String
  user_agent : Option String
  request_id : Option String
  api_key_id : Option String
deriving DecidableEq, Repr

/-- Task entity, from `app/models/domain/task.py` (`Task`). Timestamps are
modelled as `Nat` clock readings. -/
structure Task where
  task_id : String
  session_id : Option String
  input_text : String
  status : TaskStatus
  selected_agent : Option String
  agent_type : Option String
  peer_routing_reason : Option String
  created_at : Nat
  updated_at : Nat
  queued_at : Nat
  started_at : Option Nat
  completed_at : Option Nat
  error : Option TaskErrorInfo
  result : Option TaskResult
  metadata : Option TaskMetadata
  cost : Option TaskCost
deriving DecidableEq, Repr

/-- Partial task update, from `app/models/domain/task.py` (`TaskUpdate`).
A `none` field is an *unset* field (pydantic `exclude_unset`): the update
leaves it untouched. On the verified call sites every field the service
sets is set to a non-`None` value, so `Option` faithfully captures
`exclude_unset` semantics. -/
structure TaskUpdate where
  status : Option TaskStatus
  selected_agent : Option String
  agent_type : Option String
  peer_routing_reason : Option String
  started_at : Option Nat
  completed_at : Option Nat
  error : Option TaskErrorInfo
  result : Option TaskResult
  cost : Option TaskCost
deriving DecidableEq, Repr

/-- Token usage of one agent run, from `app/models/domain/agent_run.py`. -/
structure TokenUsage where
  prompt : Int
  completion : Int
  total : Int
deriving DecidableEq, Repr

/-- Immutable audit record of one Model Service invocation, from
`app/models/domain/agent_run.py` (`AgentRun`). -/
structure AgentRun where
  run_id : String
  task_id : String
  session_id : Option String
  agent_name : String
  agent_role : String
  input : String
  output : String
  model : String
  tools_used : List String
  started_at : Nat
  finished_at : Nat
  duration_ms : Int
  token_usage : TokenUsage
deriving DecidableEq, Repr

/-- Conversation message, from `app/models/domain/message.py` (`Message`). -/
structure Message where
  session_id : Option String
  task_id : String
  role : String
  agent_name : Option String
  content : String
  created_at : Nat
deriving DecidableEq, Repr

/-- Model Service usage block, from `app/llm/base_client.py` (`LLMUsage`). -/
structure LLMUsage where
  prompt_tokens : Int
  completion_tokens : Int
  total_tokens : Int
deriving DecidableEq, Repr

/-- Model Service result, from `app/llm/base_client.py` (`LLMResult`). -/
structure LLMResult where
  content : String
  usage : LLMUsage
  model : String
deriving DecidableEq, Repr

/-- Search provider hit, from `app/llm/tools/web_search_tool.py`
(`WebSearchResult`); `score` is modelled as `ℚ`. -/
structure WebSearchResult where
  title : String
  url : String
  content : String
  score : ℚ
deriving DecidableEq, Repr

/-- Routing decision, from `app/agents/peer_agent.py` (`TaskClassification`). -/
structure TaskClassification where
  agent_name : String
  agent_type : String
  confidence : ℚ
  reasoning : String
deriving DecidableEq, Repr

/-- Code-plan value, from `app/agents/code_agent.py` (`CodeTaskPlan`). -/
structure CodeTaskPlan where
  language : String
  description : String
  tests_required : Bool
  notes : String
deriving DecidableEq, Repr

/-- Generated code artifact, from `app/agents/code_agent.py`
(`GeneratedCodeArtifact`). -/
structure GeneratedCodeArtifact where
  language : String
  description : String
  code : String
deriving DecidableEq, Repr

/-- Handler output contract, from `app/agents/base.py` (`AgentOutput`). -/
structure AgentOutput where
  agent_name : String
  content : String
  code_language : Option String
  citations : List Citation
deriving DecidableEq, Repr

/-- Parsed JSON value as produced by Python's `json.loads`. Numbers are
modelled as `ℚ`. -/
inductive PyJson where
  | null
  | bool (b : Bool)
  | num (q : ℚ)
  | str (s : String)
  | arr (elems : List PyJson)
  | obj (fields : List (String × PyJson))

/-- Python exception values observable by the worker's `except` clauses.
`infra` stands for any exception raised by an external collaborator
(Model Service transport, Redis, ...) carrying its class name. -/
inductive PyErr where
  | unknownTaskType (msg : String)
  | llmError (msg : String)
  | runtimeError (msg : String)
  | attributeError (msg : String)
  | typeError (msg : String)
  | valueError (msg : String)
  | keyError (msg : String)
  | infra (className : String) (msg : String)
deriving DecidableEq, Repr

/-- Value of `exc.__class__.__name__` for a modelled exception. -/
def PyErr.className : PyErr → String
  | .unknownTaskType _ => "UnknownTaskTypeError"
  | .llmError _ => "LLMError"
  | .runtimeError _ => "RuntimeError"
  | .attributeError _ => "AttributeError"
  | .typeError _ => "TypeError"
  | .valueError _ => "ValueError"
  | .keyError _ => "KeyError"
  | .infra c _ => c

/-- Value of `str(exc)` for a modelled exception (for `AppError` subclasses
this is the message passed to the constructor). -/
def PyErr.msgStr : PyErr → String
  | .unknownTaskType m => m
  | .llmError m => m
  | .runtimeError m => m
  | .attributeError m => m
  | .typeError m => m
  | .valueError m => m
  | .keyError m => m
  | .infra _ m => m

deriving instance DecidableEq for Except

/-- Transition-event payload published on Redis, from
`TaskService._publish_event` call sites. -/
structure EventPayload where
  event : String
  status : String
  timestamp : Nat
  error_type : Option String
  error_message : Option String
deriving DecidableEq, Repr

/-- Durable and observable state threaded through the model: the Mongo
collections, the session store, the list of successfully delivered Redis
publishes, the clock, and the call counters for the Model Service and the
publish transport. -/
structure World where
  tasks : List Task
  agentRuns : List AgentRun
  messages : List Message
  sessions : List (String × Option String)
  published : List (String × EventPayload)
  clock : Nat
  llmCount : Nat
  pubCount : Nat
deriving DecidableEq, Repr

/-- The durable part of a world: everything except the list of delivered
publishes. Two worlds with equal cores differ at most in what the
best-effort event channel delivered. -/
def World.core (w : World) : World :=
  { w with published := [] }

/-- External collaborators: `json.loads` (none = `JSONDecodeError`), the
Model Service (indexed by call number; `Except.error` = transport/provider
exception), the search provider, and the publish transport (false = the
publish call raises). -/
structure Env where
  pyLoads : String → Option PyJson
  llm : Nat → Except PyErr LLMResult
  search : Except PyErr (List WebSearchResult)
  publishOk : Nat → Bool

/-- Python truthiness of a JSON value (`bool(x)`). -/
def pyTruthy : PyJson → Bool
  | .null => false
  | .bool b => b
  | .num q => q ≠ 0
  | .str s => s ≠ ""
  | .arr l => !l.isEmpty
  | .obj l => !l.isEmpty

/-- Python `dict.get(key)` over a parsed JSON object (keys of a parsed
JSON object are unique, so first-match lookup is faithful). -/
def pyGet (fields : List (String × PyJson)) (key : String) : Option PyJson :=
  match fields with
  | [] => none
  | (k, v) :: rest => if k = key then some v else pyGet rest key

/-- Decimal rendering of a rational, used to model Python's `str()` on the
numbers appearing in parsed JSON. Exact only for integers; the theorems
below never depend on the rendering of non-integral numbers. -/
def ratRepr (q : ℚ) : String :=
  if q.den = 1 then toString q.num else toString q.num ++ "/" ++ toString q.den

mutual

/-- Python `str(x)` on a JSON value (models the stdlib; exercised by the
theorems only on strings, where it is the identity). -/
def pyStrRepr : PyJson → String
  | .null => "None"
  | .bool true => "True"
  | .bool false => "False"
  | .num q => ratRepr q
  | .str s => s
  | .arr l => "[" ++ pyStrReprList l ++ "]"
  | .obj l => "\x7b" ++ pyStrReprObj l ++ "\x7d"

/-- Comma-joined renderings of list elements. -/
def pyStrReprList : List PyJson → String
  | [] => ""
  | [v] => pyStrRepr v
  | v :: rest => pyStrRepr v ++ ", " ++ pyStrReprList rest

/-- Comma-joined renderings of object entries. -/
def pyStrReprObj : List (String × PyJson) → String
  | [] => ""
  | [(k, v)] => "'" ++ k ++ "': " ++ pyStrRepr v
  | (k, v) :: rest => "'" ++ k ++ "': " ++ pyStrRepr v ++ ", " ++ pyStrReprObj rest

end

mutual

/-- Model of `json.dumps` (stdlib collaborator); the exact rendering is
never load-bearing in the theorems, only that the raw exchange is stored. -/
def pyDumps : PyJson → String
  | .null => "null"
  | .bool true => "true"
  | .bool false => "false"
  | .num q => ratRepr q
  | .str s => "\"" ++ s ++ "\""
  | .arr l => "[" ++ pyDumpsList l ++ "]"
  | .obj l => "\x7b" ++ pyDumpsObj l ++ "\x7d"

/-- Comma-joined dumps of list elements. -/
def pyDumpsList : List PyJson → String
  | [] => ""
  | [v] => pyDumps v
  | v :: rest => pyDumps v ++ ", " ++ pyDumpsList rest

/-- Comma-joined dumps of object entries. -/
def pyDumpsObj : List (String × PyJson) → String
  | [] => ""
  | [(k, v)] => "\"" ++ k ++ "\": " ++ pyDumps v
  | (k, v) :: rest => "\"" ++ k ++ "\": " ++ pyDumps v ++ ", " ++ pyDumpsObj rest

end

/-- Digits-to-nat accumulator for the decimal parser. -/
def digitsVal : List Char → Option Nat
  | [] => some 0
  | c :: rest =>
    if c.isDigit then
      match digitsVal rest with
      | some v => some (v * 10 + (c.toNat - '0'.toNat))
      | none => none
    else none

/-- Value of a digit list read most-significant-first. -/
def digitsValMSF (l : List Char) : Option Nat :=
  l.foldl
    (fun acc c =>
      match acc with
      | none => none
      | some v => if c.isDigit then some (v * 10 + (c.toNat - '0'.toNat)) else none)
    (some 0)

/-- Model of Python `float(s)` on plain decimal literals: optional sign,
digits, optional fractional part. Literals outside this fragment (exponents,
`inf`, `nan`) are not exercised by any theorem. `none` = `ValueError`. -/
def parseDecimal (s : String) : Option ℚ :=
  let chars := s.trim.toList
  let (sign, rest) :=
    match chars with
    | '-' :: r => ((-1 : ℚ), r)
    | '+' :: r => ((1 : ℚ), r)
    | r => ((1 : ℚ), r)
  let intPart := rest.takeWhile (·.isDigit)
  let after := rest.drop intPart.length
  match after with
  | [] =>
    if intPart.isEmpty then none
    else (digitsValMSF intPart).map (fun n => sign * (n : ℚ))
  | '.' :: fracChars =>
    let fracPart := fracChars.takeWhile (·.isDigit)
    if fracChars.length ≠ fracPart.length then none
    else if intPart.isEmpty ∧ fracPart.isEmpty then none
    else
      match digitsValMSF intPart, digitsValMSF fracPart with
      | some i, some f =>
        some (sign * ((i : ℚ) + (f : ℚ) / ((10 : ℚ) ^ fracPart.length)))
      | _, _ => none
  | _ => none

/-- Model of Python `float(x)` applied to a JSON value (`TypeError` /
`ValueError` on non-numeric shapes, as in CPython). -/
def pyFloat : PyJson → Except PyErr ℚ
  | .num q => .ok q
  | .bool b => .ok (if b then 1 else 0)
  | .str s =>
    match parseDecimal s with
    | some q => .ok q
    | none => .error (.valueError ("could not convert string to float: " ++ s))
  | .null => .error (.typeError "float() argument must not be None")
  | .arr _ => .error (.typeError "float() argument must not be a list")
  | .obj _ => .error (.typeError "float() argument must not be a dict")

/-- Whether `pat` occurs at the head of `text`. -/
def leadsWith : List Char → List Char → Bool
  | [], _ => true
  | _ :: _, [] => false
  | p :: ps, t :: ts => p = t && leadsWith ps ts

/-- Whether `pat` occurs anywhere inside `text` (Python's `in` on `str`). -/
def occursIn (pat : List Char) : List Char → Bool
  | [] => leadsWith pat []
  | t :: ts => leadsWith pat (t :: ts) || occursIn pat ts

/-- Python `needle in hay` for strings. -/
def containsSub (needle hay : String) : Bool :=
  occursIn needle.toList hay.toList

/-- Python `str.rstrip()`: drop trailing whitespace. -/
def pyRstrip (s : String) : String :=
  ⟨(s.toList.reverse.dropWhile Char.isWhitespace).reverse⟩

/-- Python `str.lower()`, modelled per character (the strings the code
lowercases are ASCII); implemented structurally so the model evaluates by
kernel reduction. -/
def pyLower (s : String) : String :=
  ⟨s.toList.map Char.toLower⟩

/-- Python string truthiness for an optional string (`if x:` on
`Optional[str]`): false for `None` and for the empty string. -/
def pyTruthyStrOpt : Option String → Bool
  | none => false
  | some s => s ≠ ""

/-- Model of `app.core.utils.utc_now()`: read the clock and tick it. -/
def utcNow (w : World) : Nat × World :=
  (w.clock, { w with clock := w.clock + 1 })

/-- Lookup of a task by id, modelling
`TaskRepository.get_by_task_id` (`find_one` on the unique `task_id`). -/
def findTask (tasks : List Task) (task_id : String) : Option Task :=
  tasks.find? (fun t => t.task_id = task_id)

/-- A `TaskUpdate` with every field unset. -/
def TaskUpdate.empty : TaskUpdate :=
  ⟨none, none, none, none, none, none, none, none, none⟩

/-- Whether `model_dump(exclude_unset=True)` of the update is empty. -/
def TaskUpdate.isUnsetAll (u : TaskUpdate) : Bool :=
  u.status.isNone && u.selected_agent.isNone && u.agent_type.isNone &&
    u.peer_routing_reason.isNone && u.started_at.isNone &&
    u.completed_at.isNone && u.error.isNone && u.result.isNone &&
    u.cost.isNone

/-- Application of the `$set` document built by `TaskRepository.update` to
one stored task: set fields present in the update, stamp `updated_at`. -/
def applyTaskUpdate (t : Task) (u : TaskUpdate) (now : Nat) : Task :=
  { t with
    status := u.status.getD t.status
    selected_agent := u.selected_agent.orElse (fun _ => t.selected_agent)
    agent_type := u.agent_type.orElse (fun _ => t.agent_type)
    peer_routing_reason := u.peer_routing_reason.orElse (fun _ => t.peer_routing_reason)
    started_at := u.started_at.orElse (fun _ => t.started_at)
    completed_at := u.completed_at.orElse (fun _ => t.completed_at)
    error := u.error.orElse (fun _ => t.error)
    result := u.result.orElse (fun _ => t.result)
    cost := u.cost.orElse (fun _ => t.cost)
    updated_at := now }

/-- Model of `TaskRepository.update`: empty update short-circuits to a
read; otherwise `update_one({"task_id": id}, {"$set": ...})` (a no-op when
the id is absent) followed by a read-back. -/
def tasksRepoUpdate (w : World) (task_id : String) (u : TaskUpdate) :
    Option Task × World :=
  if u.isUnsetAll then (findTask w.tasks task_id, w)
  else
    let (now, w₁) := utcNow w
    let w₂ := { w₁ with
      tasks := w₁.tasks.map
        (fun t => if t.task_id = task_id then applyTaskUpdate t u now else t) }
    (findTask w₂.tasks task_id, w₂)

/-- Model of `redis.publish` on the task-event channel: consume one index
of the publish oracle; on success the payload is delivered, otherwise the
call raises. -/
def redisPublish (w : World) (env : Env) (channel : String)
    (payload : EventPayload) : Except PyErr Unit × World :=
  let n := w.pubCount
  let w₁ := { w with pubCount := n + 1 }
  if env.publishOk n then
    (.ok (), { w₁ with published := w₁.published ++ [(channel, payload)] })
  else
    (.error (.infra "ConnectionError" "redis publish failed"), w₁)

/-- Model of `TaskService._publish_event`: the publish attempt is wrapped
in `try/except Exception`, and a failure is logged and swallowed. -/
def publishEvent (w : World) (env : Env) (task_id : String)
    (payload : EventPayload) : Except PyErr Unit × World :=
  let channel := "task_events:" ++ task_id
  match redisPublish w env channel payload with
  | (.ok _, w') => (.ok (), w')
  | (.error _, w') => (.ok (), w')

/-- Model of `TaskService.mark_processing`: unconditional status update to
`processing` with a fresh `started_at`, then (if the task was found) a
processing transition event. -/
def markProcessing (w : World) (env : Env) (task_id : String) :
    Option Task × World :=
  let (now, w₁) := utcNow w
  let u : TaskUpdate :=
    { TaskUpdate.empty with status := some .processing, started_at := some now }
  let (t?, w₂) := tasksRepoUpdate w₁ task_id u
  match t? with
  | some t =>
    match t.started_at with
    | some ts =>
      let (_, w₃) := publishEvent w₂ env task_id
        ⟨"status_changed", TaskStatus.processing.value, ts, none, none⟩
      (some t, w₃)
    | none =>
      let (now', w₂') := utcNow w₂
      let (_, w₃) := publishEvent w₂' env task_id
        ⟨"status_changed", TaskStatus.processing.value, now', none, none⟩
      (some t, w₃)
  | none => (none, w₂)

/-- Arguments of `TaskService.mark_completed` beyond the task itself. -/
structure MarkCompletedArgs where
  selected_agent : String
  agent_type : String
  peer_reason : String
  content : String
  code_language : Option String
  citations : List Citation
  prompt_tokens : Int
  completion_tokens : Int
  model : String
deriving DecidableEq, Repr

/-- Model of `TaskService.mark_completed`: build cost and result, update
the stored task, raise `RuntimeError` if the id is absent, publish the
completed transition event, append the assistant message. -/
def markCompleted (w : World) (env : Env) (task : Task)
    (a : MarkCompletedArgs) : Except PyErr Task × World :=
  let (now, w₁) := utcNow w
  let cost : TaskCost :=
    ⟨some a.prompt_tokens, some a.completion_tokens,
      some (a.prompt_tokens + a.completion_tokens), none⟩
  let result : TaskResult := ⟨none, some a.content, a.code_language, a.citations⟩
  let u : TaskUpdate :=
    { TaskUpdate.empty with
      status := some .completed
      selected_agent := some a.selected_agent
      agent_type := some a.agent_type
      peer_routing_reason := some a.peer_reason
      completed_at := some now
      result := some result
      cost := some cost }
  let (t?, w₂) := tasksRepoUpdate w₁ task.task_id u
  match t? with
  | none =>
    (.error (.runtimeError
      ("Task " ++ task.task_id ++ " not found during mark_completed.")), w₂)
  | some updated =>
    let (_, w₃) := publishEvent w₂ env task.task_id
      ⟨"status_changed", TaskStatus.completed.value, now, none, none⟩
    let (now', w₄) := utcNow w₃
    let msg : Message :=
      ⟨task.session_id, task.task_id, "assistant", some a.selected_agent,
        a.content, now'⟩
    (.ok updated, { w₄ with messages := w₄.messages ++ [msg] })

/-- Model of `TaskService.mark_failed`: record the structured error and the
failed status, raise `RuntimeError` if the id is absent, publish the failed
transition event. -/
def markFailed (w : World) (env : Env) (task : Task) (error_type : String)
    (message : String) (stack : Option String) : Except PyErr Task × World :=
  let info : TaskErrorInfo := ⟨some error_type, some message, stack⟩
  let (now, w₁) := utcNow w
  let u : TaskUpdate :=
    { TaskUpdate.empty with
      status := some .failed
      error := some info
      completed_at := some now }
  let (t?, w₂) := tasksRepoUpdate w₁ task.task_id u
  match t? with
  | none =>
    (.error (.runtimeError
      ("Task " ++ task.task_id ++ " not found during mark_failed.")), w₂)
  | some updated =>
    let (now', w₃) := utcNow w₂
    let (_, w₄) := publishEvent w₃ env task.task_id
      ⟨"status_changed", TaskStatus.failed.value, now', some error_type,
        some message⟩
    (.ok updated, w₄)

/-- Model of `SessionService.update_last_task`: silently return when the
session is absent, otherwise stamp the session's last task. Session
repository operations are modelled as reliable, like the task repository. -/
def sessionUpdateLastTask (w : World) (session_id task_id : String) :
    Unit × World :=
  match w.sessions.find? (fun p => p.fst = session_id) with
  | none => ((), w)
  | some _ =>
    let (_, w₁) := utcNow w
    ((), { w₁ with
      sessions := w₁.sessions.map
        (fun p => if p.fst = session_id then (p.fst, some task_id) else p) })

/-- Coercion `str(payload.get(key) or default)` used by the router and the
code agent: a missing or falsy value falls back to the default string. -/
def pyStrField (fields : List (String × PyJson)) (key dflt : String) : String :=
  match pyGet fields key with
  | some v => if pyTruthy v then pyStrRepr v else dflt
  | none => dflt

/-- Coercion `float(payload.get("confidence") or 0.0)` used by the router:
a missing or falsy value yields `0.0`; otherwise Python `float()` applies
(and may raise). -/
def pyConfidenceField (fields : List (String × PyJson)) : Except PyErr ℚ :=
  match pyGet fields "confidence" with
  | some v => if pyTruthy v then pyFloat v else .ok 0
  | none => .ok 0

/-- Field coercions of `PeerAgentRouter._classify_task_node` (lines
110-113): `agent_name`, `agent_type` and `reasoning` are `str(...)`-coerced
with safe defaults, `confidence` is `float(...)`-coerced and may raise. -/
def coerceClassification (fields : List (String × PyJson)) :
    Except PyErr TaskClassification :=
  let agent_name := pyStrField fields "agent_name" "Unknown"
  let agent_type := pyStrField fields "agent_type" "unknown"
  match pyConfidenceField fields with
  | .error e => .error e
  | .ok confidence =>
    let reasoning := pyStrField fields "reasoning" ""
    .ok ⟨agent_name, agent_type, confidence, reasoning⟩

/-- The router audit record persisted by `_classify_task_node` (lines
123-142 of `peer_agent.py`). -/
def routerAgentRun (task : Task) (result : LLMResult)
    (fields : List (String × PyJson)) : AgentRun :=
  { run_id := task.task_id ++ ":router"
    task_id := task.task_id
    session_id := task.session_id
    agent_name := "PeerAgent"
    agent_role := "router"
    input := task.input_text
    output := pyDumps (.obj fields)
    model := result.model
    tools_used := []
    started_at := task.created_at
    finished_at := task.created_at
    duration_ms := 0
    token_usage :=
      ⟨result.usage.prompt_tokens, result.usage.completion_tokens,
        result.usage.total_tokens⟩ }

/-- Model of `PeerAgentRouter._classify_task_node`: one Model Service call;
`json.loads` failure raises `UnknownTaskTypeError`; `.get` on a non-object
payload raises `AttributeError`; after successful coercion the router
`AgentRun` is persisted and the classification returned. -/
def classifyTaskNode (w : World) (env : Env) (task : Task) :
    Except PyErr TaskClassification × World :=
  let n := w.llmCount
  let w₁ := { w with llmCount := n + 1 }
  match env.llm n with
  | .error e => (.error e, w₁)
  | .ok result =>
    match env.pyLoads result.content with
    | none =>
      (.error (.unknownTaskType
        "Router could not classify task. Please clarify your request."), w₁)
    | some (.obj fields) =>
      match coerceClassification fields with
      | .error e => (.error e, w₁)
      | .ok classification =>
        (.ok classification,
          { w₁ with agentRuns := w₁.agentRuns ++ [routerAgentRun task result fields] })
    | some _ =>
      (.error (.attributeError "object has no attribute get"), w₁)

/-- Model of `PeerAgentRouter._route_to_agent_node`: the spec's routing
gate. An unrecognized `agent_name` and a confidence below `0.6` each raise
`UnknownTaskTypeError` (the code-level identity of the spec's
`RoutingError`); the name check runs first. -/
def routeToAgentNode (c : TaskClassification) : Except PyErr Unit :=
  if ¬(c.agent_name = "ContentAgent" ∨ c.agent_name = "CodeAgent") then
    .error (.unknownTaskType
      "Task cannot be routed to a known agent. Please rephrase your request.")
  else if c.confidence < mkRat 6 10 then
    .error (.unknownTaskType
      "Router is not confident about the task type. Please provide more details.")
  else
    .ok ()

/-- Model of `ContentAgent._build_search_query`: strip, then keep the first
200 characters. -/
def buildSearchQuery (raw_text : String) : String :=
  let query := raw_text.trim
  if query.length > 200 then query.take 200 else query

/-- Rendering of one reference entry, from the f-string inside
`ContentAgent._append_reference_section_if_missing`. `title` falls back to
the url when the citation title is falsy; callers only pass url-bearing
citations. -/
def renderCitationEntry (idx : Nat) (c : Citation) : String :=
  let url := (c.url).getD ""
  let title := if pyTruthyStrOpt c.title then (c.title).getD "" else url
  "- [" ++ toString idx ++ "] <a href=\"" ++ url ++
    "\" target=\"_blank\" rel=\"noopener noreferrer\">" ++ title ++ "</a>"

/-- Whether a citation carries a truthy url (`if not citation.url: continue`). -/
def citationHasUrl (c : Citation) : Bool :=
  pyTruthyStrOpt c.url

/-- Loop body of `_append_reference_section_if_missing`: entries for the
url-bearing citations, numbering them from `idx` upward. -/
def refEntryLines : List Citation → Nat → List String
  | [], _ => []
  | c :: rest, idx =>
    if citationHasUrl c then
      renderCitationEntry idx c :: refEntryLines rest (idx + 1)
    else
      refEntryLines rest idx

/-- Detection of an existing references section over the lowercased
content, from `_append_reference_section_if_missing`. -/
def hasReferencesSection (content : String) : Bool :=
  let normalized := pyLower content
  containsSub "## references" normalized ||
    containsSub "\nreferences\n" normalized

/-- Python `sep.join(lines)`. -/
def joinSep (sep : String) : List String → String
  | [] => ""
  | [l] => l
  | l :: rest => l ++ sep ++ joinSep sep rest

/-- String `"\n".join(lines)`. -/
def joinNl : List String → String :=
  joinSep "\n"

/-- Model of `ContentAgent._append_reference_section_if_missing`: return
the content unchanged when the citation list is empty or a references
section is already present; otherwise append the numbered url-bearing
entries unless there are none. -/
def appendReferenceSectionIfMissing (content : String)
    (citations : List Citation) : String :=
  if citations.isEmpty then content
  else if hasReferencesSection content then content
  else
    let entries := refEntryLines citations 1
    if entries.isEmpty then content
    else
      pyRstrip content ++ "\n\n" ++ joinNl ("" :: "## References" :: entries) ++ "\n"

/-- Snippet shortening in `ContentAgent._search_web_node`: newline
replacement, then a 400-character cap with an ellipsis. -/
def capSnippet (s : String) : String :=
  let snippet := s.replace "\n" " "
  if snippet.length > 400 then snippet.take 400 ++ "..." else snippet

/-- Context line for one search hit (index, title, url, capped snippet). -/
def searchContextLine (idx : Nat) (r : WebSearchResult) : String :=
  "[" ++ toString idx ++ "] Title: " ++ r.title ++ "\nURL: " ++ r.url ++
    "\nSnippet: " ++ capSnippet r.content

/-- Context lines for the capped hit list, numbered from `idx`. -/
def searchContextLines : List WebSearchResult → Nat → List String
  | [], _ => []
  | r :: rest, idx => searchContextLine idx r :: searchContextLines rest (idx + 1)

/-- Model of `ContentAgent._search_web_node`: a provider failure is caught
and degrades to an empty result set; hits are capped at 5 (the
`_max_citations` bound) and turned into citations and a grounding context.
The prompt text built from the context does not influence the Model
Service oracle and is therefore not replayed here. -/
def searchWebNode (env : Env) : List Citation × String :=
  let search_results :=
    match env.search with
    | .ok rs => rs
    | .error _ => []
  let limited := search_results.take 5
  let citations := limited.map
    (fun r => (⟨"tavily", some r.title, some r.url⟩ : Citation))
  let lines := searchContextLines limited 1
  let search_context := if lines.isEmpty then "No search results." else
    joinSep "\n\n" lines
  (citations, search_context)

/-- Model of `ContentAgent._generate_content_node`: one Model Service call
at the content model; a transport failure propagates; on success the raw
content and the usage are returned. -/
def generateContentNode (w : World) (env : Env) :
    Except PyErr (String × LLMUsage) × World :=
  let n := w.llmCount
  let w₁ := { w with llmCount := n + 1 }
  match env.llm n with
  | .error e => (.error e, w₁)
  | .ok result => (.ok (result.content, result.usage), w₁)

/-- Model of `ContentAgent.run`: the linear search-then-generate pipeline,
followed by the deterministic references post-processing. An exception
from a node is logged and re-raised. The node usage feeds only a log line;
the returned `AgentOutput` carries no usage and the agent persists no
`AgentRun` (as in the source). -/
def contentAgentRun (w : World) (env : Env) (_task : Task) :
    Except PyErr AgentOutput × World :=
  let (citations, _search_context) := searchWebNode env
  match generateContentNode w env with
  | (.error e, w₁) => (.error e, w₁)
  | (.ok (content, _usage), w₁) =>
    let content' := appendReferenceSectionIfMissing content citations
    (.ok ⟨"ContentAgent", content', none, citations⟩, w₁)

/-- Fallback plan of `CodeAgent._plan_task_node` used when the planning
JSON cannot be parsed. -/
def fallbackPlan : CodeTaskPlan :=
  ⟨"python",
    "Fallback plan generated because planning JSON could not be parsed.",
    false,
    "Check planner prompt and model behaviour."⟩

/-- Coercion of a parsed planning payload, from the `else` branch of
`CodeAgent._plan_task_node`: `str(... or default)` for `language` and
`description`, truthiness for `tests_required` (absent means `False`), and
a `notes`-or-`reasoning` chain for `notes`. -/
def coercePlan (fields : List (String × PyJson)) : CodeTaskPlan :=
  let language := pyStrField fields "language" "python"
  let description :=
    pyStrField fields "description"
      "Implement the behaviour described in the user task."
  let tests_required :=
    match pyGet fields "tests_required" with
    | some v => pyTruthy v
    | none => false
  let notes :=
    match pyGet fields "notes" with
    | some v =>
      if pyTruthy v then pyStrRepr v else pyStrField fields "reasoning" ""
    | none => pyStrField fields "reasoning" ""
  ⟨language, description, tests_required, notes⟩

/-- Model of `CodeAgent._plan_task_node`: one Model Service call at
temperature 0; a `json.loads` failure falls back to the fixed default plan
instead of raising; a parseable non-object payload raises
`AttributeError`; otherwise the coerced plan is returned. -/
def planTaskNode (w : World) (env : Env) :
    Except PyErr (CodeTaskPlan × LLMUsage) × World :=
  let n := w.llmCount
  let w₁ := { w with llmCount := n + 1 }
  match env.llm n with
  | .error e => (.error e, w₁)
  | .ok result =>
    match env.pyLoads result.content with
    | none => (.ok (fallbackPlan, result.usage), w₁)
    | some (.obj fields) => (.ok (coercePlan fields, result.usage), w₁)
    | some _ => (.error (.attributeError "object has no attribute get"), w₁)

/-- Coercion of a parsed generation payload, from the `else` branch of
`CodeAgent._generate_code_node`, including the
`payload.get("language") or plan.language or "python"` chain. -/
def coerceArtifact (fields : List (String × PyJson)) (plan : CodeTaskPlan) :
    GeneratedCodeArtifact :=
  let planLanguage := if plan.language ≠ "" then plan.language else "python"
  let language :=
    match pyGet fields "language" with
    | some v => if pyTruthy v then pyStrRepr v else planLanguage
    | none => planLanguage
  let description :=
    pyStrField fields "description"
      "Generated code based on the request and planning information."
  let code := pyStrField fields "code" ""
  ⟨language, description, code⟩

/-- Model of `CodeAgent._generate_code_node`: one Model Service call at
the code model; a `json.loads` failure degrades to using the raw response
text as the code body; a parseable non-object payload raises
`AttributeError`. -/
def generateCodeNode (w : World) (env : Env) (plan : CodeTaskPlan) :
    Except PyErr (GeneratedCodeArtifact × LLMUsage) × World :=
  let n := w.llmCount
  let w₁ := { w with llmCount := n + 1 }
  match env.llm n with
  | .error e => (.error e, w₁)
  | .ok result =>
    match env.pyLoads result.content with
    | none =>
      let language := if plan.language ≠ "" then plan.language else "python"
      (.ok (⟨language,
        "Generated code based on the request and planning information.",
        result.content⟩, result.usage), w₁)
    | some (.obj fields) => (.ok (coerceArtifact fields plan, result.usage), w₁)
    | some _ => (.error (.attributeError "object has no attribute get"), w₁)

/-- Assembly of the final content string in `CodeAgent.run`: an fenced
code block under a description section. -/
def codeContentOf (artifact : GeneratedCodeArtifact) : String :=
  let code_block :=
    "```" ++ pyLower artifact.language ++ "\n" ++ artifact.code ++ "\n```"
  "### Description\n\n" ++ artifact.description ++ "\n\n### Code\n\n" ++ code_block

/-- Model of `CodeAgent.run`: plan then generate; node exceptions are
logged and re-raised; the aggregated usage feeds only a log line, and the
returned `AgentOutput` carries no usage entry and no persisted `AgentRun`
(as in the source). -/
def codeAgentRun (w : World) (env : Env) (_task : Task) :
    Except PyErr AgentOutput × World :=
  match planTaskNode w env with
  | (.error e, w₁) => (.error e, w₁)
  | (.ok (plan, _plan_usage), w₁) =>
    match generateCodeNode w₁ env plan with
    | (.error e, w₂) => (.error e, w₂)
    | (.ok (artifact, _gen_usage), w₂) =>
      (.ok ⟨"CodeAgent", codeContentOf artifact,
        some (pyLower artifact.language), []⟩, w₂)

/-- Model of `PeerAgentRouter._execute_agent_node`: registry dispatch on
the classified agent name (both handler identities are registered at
startup; any other name would raise `KeyError`, but the route node has
already excluded it). -/
def executeAgentNode (w : World) (env : Env) (task : Task)
    (c : TaskClassification) : Except PyErr AgentOutput × World :=
  if c.agent_name = "ContentAgent" then contentAgentRun w env task
  else if c.agent_name = "CodeAgent" then codeAgentRun w env task
  else (.error (.keyError ("Agent " ++ c.agent_name ++ " not registered.")), w)

/-- Model of `PeerAgentRouter.run`: the compiled linear LangGraph
classify → route → execute; a node exception propagates out of
`ainvoke`. -/
def peerRouterRun (w : World) (env : Env) (task : Task) :
    Except PyErr (AgentOutput × TaskClassification) × World :=
  match classifyTaskNode w env task with
  | (.error e, w₁) => (.error e, w₁)
  | (.ok classification, w₁) =>
    match routeToAgentNode classification with
    | .error e => (.error e, w₁)
    | .ok _ =>
      match executeAgentNode w₁ env task classification with
      | (.error e, w₂) => (.error e, w₂)
      | (.ok output, w₂) => (.ok (output, classification), w₂)

/-- Model of `OrchestrationService.run_peer_agent`: `UnknownTaskTypeError`
is re-raised unchanged; any other exception is wrapped into `LLMError`. -/
def orchestrationRunPeerAgent (w : World) (env : Env) (task : Task) :
    Except PyErr (AgentOutput × TaskClassification) × World :=
  match peerRouterRun w env task with
  | (.ok r, w') => (.ok r, w')
  | (.error (.unknownTaskType m), w') => (.error (.unknownTaskType m), w')
  | (.error _, w') => (.error (.llmError "Failed to run peer agent."), w')

/-- Exception handling of `_process_task_async` (its two `except` clauses):
an `UnknownTaskTypeError` is recorded as an `UNKNOWN_TASK_TYPE` failure,
any other exception as a generic failure with class name and trace. An
exception raised by `mark_failed` itself propagates. -/
def processTaskHandleExc (w : World) (env : Env) (task : Task) (e : PyErr) :
    Except PyErr Unit × World :=
  match e with
  | .unknownTaskType m =>
    match markFailed w env task "UNKNOWN_TASK_TYPE" m none with
    | (.ok _, w') => (.ok (), w')
    | (.error e', w') => (.error e', w')
  | _ =>
    match markFailed w env task e.className e.msgStr (some "traceback") with
    | (.ok _, w') => (.ok (), w')
    | (.error e', w') => (.error e', w')

/-- Model of `_process_task_async` from `app/worker/tasks.py`: look the
task up (a missing task only logs); mark it processing unconditionally;
run the peer-agent pipeline under the worker's `try`; on success mark it
completed with zero token counts (as the source does) and stamp the
session's last task; on a caught exception mark it failed. -/
def processTaskAsync (w : World) (env : Env) (task_id : String) :
    Except PyErr Unit × World :=
  match findTask w.tasks task_id with
  | none => (.ok (), w)
  | some task =>
    let (_, w₁) := markProcessing w env task_id
    match orchestrationRunPeerAgent w₁ env task with
    | (.error e, w₂) => processTaskHandleExc w₂ env task e
    | (.ok (output, classification), w₂) =>
      let args : MarkCompletedArgs :=
        { selected_agent := output.agent_name
          agent_type := classification.agent_type
          peer_reason := classification.reasoning
          content := output.content
          code_language := output.code_language
          citations := output.citations
          prompt_tokens := 0
          completion_tokens := 0
          model := "" }
      match markCompleted w₂ env task args with
      | (.error e, w₃) => processTaskHandleExc w₃ env task e
      | (.ok _, w₃) =>
        match task.session_id with
        | some sid =>
          if sid ≠ "" then
            let (_, w₄) := sessionUpdateLastTask w₃ sid task.task_id
            (.ok (), w₄)
          else (.ok (), w₃)
        | none => (.ok (), w₃)

/-- Specification-side restatement of the references post-processing,
following the spec's words for the refinement claim about
`_append_reference_section_if_missing`: content with an existing
references section is unchanged; otherwise, when at least one citation has
a resolvable URL, the numbered list of exactly the url-bearing citations
(one entry each, in order) is appended; when none has a URL or the list is
empty, the content is unchanged. -/
def appendReferencesSpec (content : String) (citations : List Citation) :
    String :=
  if hasReferencesSection content then content
  else
    let urlCited := citations.filter citationHasUrl
    if urlCited.isEmpty then content
    else
      let entries := (urlCited.enumFrom 1).map
        (fun p => renderCitationEntry p.1 p.2)
      pyRstrip content ++ "\n\n" ++
        joinNl ("" :: "## References" :: entries) ++ "\n"

/-- Frame facts: the pipeline components never touch the durable task
store, the messages, the sessions or the publish counter. -/
def PipelineFrame (w w' : World) : Prop :=
  w'.tasks = w.tasks ∧ w'.messages = w.messages ∧
    w'.sessions = w.sessions ∧ w'.pubCount = w.pubCount

/-! Concrete fixtures used to evaluate the model on explicit inputs. -/

/-- Fixture: a freshly queued task. -/
def sampleTask : Task :=
  ⟨"t1", some "s1", "write a blog post about rust", .queued, none, none, none,
    0, 0, 0, none, none, none, none, none, none⟩

/-- Fixture: the same task already in the terminal `completed` status. -/
def doneTask : Task :=
  { sampleTask with status := .completed }

/-- Fixture: an empty store. -/
def emptyWorld : World :=
  ⟨[], [], [], [], [], 0, 0, 0⟩

/-- Fixture: a store holding the queued task and its session. -/
def worldQueued : World :=
  ⟨[sampleTask], [], [], [("s1", none)], [], 0, 0, 0⟩

/-- Fixture: a store holding the already-completed task. -/
def worldDone : World :=
  ⟨[doneTask], [], [], [("s1", none)], [], 10, 0, 0⟩

/-- Fixture: collaborators with an unreachable Model Service. -/
def envTrivial : Env :=
  ⟨fun _ => none, fun _ => .error (.infra "APIConnectionError" "service down"),
    .ok [], fun _ => true⟩

/-- Fixture: a classification payload routing to the content handler with
confidence 0.9. -/
def clsPayload : List (String × PyJson) :=
  [("agent_name", .str "ContentAgent"), ("agent_type", .str "content"),
    ("confidence", .num (mkRat 9 10)), ("reasoning", .str "blog request")]

/-- Fixture: collaborators for a successful content-handler run; the
classify call reports usage 10/20 and the generation call 100/200. -/
def envContent : Env :=
  ⟨fun s => if s = "CLS" then some (.obj clsPayload) else none,
    fun n => if n = 0 then .ok ⟨"CLS", ⟨10, 20, 30⟩, "gpt"⟩
      else .ok ⟨"ARTICLE", ⟨100, 200, 300⟩, "gpt"⟩,
    .ok [], fun _ => true⟩

/-- Fixture: collaborators whose Model Service answers are never valid
JSON. -/
def envBadJson : Env :=
  ⟨fun _ => none, fun _ => .ok ⟨"NOT JSON", ⟨1, 2, 3⟩, "gpt"⟩,
    .ok [], fun _ => true⟩

/-- Fixture: a classification payload naming the content handler with
confidence 0.5, below the gate. -/
def lowConfPayload : List (String × PyJson) :=
  [("agent_name", .str "ContentAgent"), ("agent_type", .str "content"),
    ("confidence", .num (mkRat 1 2)), ("reasoning", .str "unsure")]

/-- Fixture: collaborators producing the low-confidence classification. -/
def envLowConf : Env :=
  ⟨fun s => if s = "CLS" then some (.obj lowConfPayload) else none,
    fun _ => .ok ⟨"CLS", ⟨10, 20, 30⟩, "gpt"⟩,
    .ok [], fun _ => true⟩

/-- Fixture: a classification payload with an unrecognized agent name and
very high confidence. -/
def unknownPayload : List (String × PyJson) :=
  [("agent_name", .str "Unknown"), ("agent_type", .str "unknown"),
    ("confidence", .num (mkRat 95 100)), ("reasoning", .str "confused")]

/-- Fixture: collaborators producing the unrecognized classification. -/
def envUnknown : Env :=
  ⟨fun s => if s = "CLS" then some (.obj unknownPayload) else none,
    fun _ => .ok ⟨"CLS", ⟨10, 20, 30⟩, "gpt"⟩,
    .ok [], fun _ => true⟩

/-- Fixture: a classification payload routing to the code handler. -/
def codePayload : List (String × PyJson) :=
  [("agent_name", .str "CodeAgent"), ("agent_type", .str "code"),
    ("confidence", .num (mkRat 9 10)), ("reasoning", .str "code request")]

/-- Fixture: collaborators for a code-handler run whose planning and
generation outputs are both unparsable JSON. -/
def envCodePlanBad : Env :=
  ⟨fun s => if s = "CLS" then some (.obj codePayload) else none,
    fun n => if n = 0 then .ok ⟨"CLS", ⟨10, 20, 30⟩, "gpt"⟩
      else if n = 1 then .ok ⟨"PLAN GIBBERISH", ⟨4, 5, 9⟩, "gpt"⟩
      else .ok ⟨"def f(): pass", ⟨6, 7, 13⟩, "gpt"⟩,
    .ok [], fun _ => true⟩

/-- Fixture: arguments of a completed-transition call. -/
def sampleArgs : MarkCompletedArgs :=
  ⟨"ContentAgent", "content", "routed", "hello world", none, [], 0, 0, ""⟩

/-! Helper lemmas about the repository model. -/

/-- Applying an update never changes the task id. -/
theorem applyTaskUpdate_task_id (t : Task) (u : TaskUpdate) (now : Nat) :
    (applyTaskUpdate t u now).task_id = t.task_id := rfl

/-- A found task carries the id it was looked up by. -/
theorem findTask_some_id {tasks : List Task} {tid : String} {t : Task}
    (h : findTask tasks tid = some t) : t.task_id = tid := by
  have := List.find?_some h
  simpa using this

/-- Lookup after the `$set` map rewrites the found task pointwise. -/
theorem findTask_map_upd (tasks : List Task) (tid : String) (u : TaskUpdate)
    (now : Nat) :
    findTask (tasks.map
      (fun t => if t.task_id = tid then applyTaskUpdate t u now else t)) tid =
      (findTask tasks tid).map (fun t => applyTaskUpdate t u now) := by
  induction tasks with
  | nil => rfl
  | cons t rest ih =>
    by_cases h : t.task_id = tid
    · simp [findTask, List.find?, h, applyTaskUpdate_task_id]
    · simpa [findTask, List.find?, h, applyTaskUpdate_task_id] using ih



/-- Projection of `applyTaskUpdate`: the task id is preserved. -/
theorem applyTaskUpdate_id2 (t : Task) (u : TaskUpdate) (n : Nat) :
    (applyTaskUpdate t u n).task_id = t.task_id := rfl

/-- Projection of `applyTaskUpdate`: status. -/
theorem applyTaskUpdate_status (t : Task) (u : TaskUpdate) (n : Nat) :
    (applyTaskUpdate t u n).status = u.status.getD t.status := rfl

/-- Projection of `applyTaskUpdate`: start timestamp. -/
theorem applyTaskUpdate_started_at (t : Task) (u : TaskUpdate) (n : Nat) :
    (applyTaskUpdate t u n).started_at =
      u.started_at.orElse (fun _ => t.started_at) := rfl

/-- Projection of `applyTaskUpdate`: structured error. -/
theorem applyTaskUpdate_error (t : Task) (u : TaskUpdate) (n : Nat) :
    (applyTaskUpdate t u n).error = u.error.orElse (fun _ => t.error) := rfl

/-- Projection of `applyTaskUpdate`: cost. -/
theorem applyTaskUpdate_cost (t : Task) (u : TaskUpdate) (n : Nat) :
    (applyTaskUpdate t u n).cost = u.cost.orElse (fun _ => t.cost) := rfl

/-- Projection of `applyTaskUpdate`: result. -/
theorem applyTaskUpdate_result (t : Task) (u : TaskUpdate) (n : Nat) :
    (applyTaskUpdate t u n).result = u.result.orElse (fun _ => t.result) := rfl

/-- Behaviour of `TaskService.mark_processing` on a present task: the
stored task is moved to `processing` unconditionally and exactly one
publish attempt is consumed; the Model Service counter, agent runs,
messages and sessions are untouched. -/
theorem markProcessing_spec (w : World) (env : Env) (tid : String) (t : Task)
    (h : findTask w.tasks tid = some t) :
    ∃ t' w', markProcessing w env tid = (some t', w') ∧
      findTask w'.tasks tid = some t' ∧
      t'.status = .processing ∧
      t'.task_id = t.task_id ∧
      w'.llmCount = w.llmCount ∧
      w'.agentRuns = w.agentRuns ∧
      w'.messages = w.messages ∧
      w'.sessions = w.sessions ∧
      w'.pubCount = w.pubCount + 1 := by
  cases hp : env.publishOk w.pubCount with
  | true =>
    simp [markProcessing, utcNow, tasksRepoUpdate, TaskUpdate.isUnsetAll,
      TaskUpdate.empty, publishEvent, redisPublish, findTask_map_upd, h, hp,
      applyTaskUpdate_id2, applyTaskUpdate_status, applyTaskUpdate_started_at]
    refine ⟨_, _, ⟨rfl, rfl⟩, ?_, ?_, ?_, rfl, rfl, rfl, rfl, rfl⟩
    · simp [findTask_map_upd, h]
    · simp [applyTaskUpdate_status]
    · simp [applyTaskUpdate_id2]
  | false =>
    simp [markProcessing, utcNow, tasksRepoUpdate, TaskUpdate.isUnsetAll,
      TaskUpdate.empty, publishEvent, redisPublish, findTask_map_upd, h, hp,
      applyTaskUpdate_id2, applyTaskUpdate_status, applyTaskUpdate_started_at]
    refine ⟨_, _, ⟨rfl, rfl⟩, ?_, ?_, ?_, rfl, rfl, rfl, rfl, rfl⟩
    · simp [findTask_map_upd, h]
    · simp [applyTaskUpdate_status]
    · simp [applyTaskUpdate_id2]

/-- Behaviour of `TaskService.mark_completed` on a present task: no
exception, the stored task becomes `completed` with the cost and result
built from the arguments, one publish attempt is consumed, and the
assistant message is appended. -/
theorem markCompleted_spec (w : World) (env : Env) (task : Task)
    (a : MarkCompletedArgs) (t0 : Task)
    (h : findTask w.tasks task.task_id = some t0) :
    ∃ t' w', markCompleted w env task a = (.ok t', w') ∧
      findTask w'.tasks task.task_id = some t' ∧
      t'.status = .completed ∧
      t'.cost = some ⟨some a.prompt_tokens, some a.completion_tokens,
        some (a.prompt_tokens + a.completion_tokens), none⟩ ∧
      t'.result = some ⟨none, some a.content, a.code_language, a.citations⟩ ∧
      w'.agentRuns = w.agentRuns ∧
      w'.pubCount = w.pubCount + 1 ∧
      (∃ m, w'.messages = w.messages ++ [m] ∧ m.role = "assistant") := by
  cases hp : env.publishOk w.pubCount with
  | true =>
    simp [markCompleted, utcNow, tasksRepoUpdate, TaskUpdate.isUnsetAll,
      TaskUpdate.empty, publishEvent, redisPublish, findTask_map_upd, h, hp]
    refine ⟨_, _, ⟨rfl, rfl⟩, ?_, ?_, ?_, ?_, rfl, rfl, ⟨_, rfl, rfl⟩⟩
    · simp [findTask_map_upd, h]
    · simp [applyTaskUpdate_status]
    · simp [applyTaskUpdate_cost]
    · simp [applyTaskUpdate_result]
  | false =>
    simp [markCompleted, utcNow, tasksRepoUpdate, TaskUpdate.isUnsetAll,
      TaskUpdate.empty, publishEvent, redisPublish, findTask_map_upd, h, hp]
    refine ⟨_, _, ⟨rfl, rfl⟩, ?_, ?_, ?_, ?_, rfl, rfl, ⟨_, rfl, rfl⟩⟩
    · simp [findTask_map_upd, h]
    · simp [applyTaskUpdate_status]
    · simp [applyTaskUpdate_cost]
    · simp [applyTaskUpdate_result]

/-- Behaviour of `TaskService.mark_failed` on a present task: no
exception, the stored task becomes `failed` carrying the structured error,
one publish attempt is consumed, and no message is appended. -/
theorem markFailed_spec (w : World) (env : Env) (task : Task)
    (et m : String) (st : Option String) (t0 : Task)
    (h : findTask w.tasks task.task_id = some t0) :
    ∃ t' w', markFailed w env task et m st = (.ok t', w') ∧
      findTask w'.tasks task.task_id = some t' ∧
      t'.status = .failed ∧
      t'.error = some ⟨some et, some m, st⟩ ∧
      w'.agentRuns = w.agentRuns ∧
      w'.messages = w.messages ∧
      w'.pubCount = w.pubCount + 1 := by
  cases hp : env.publishOk w.pubCount with
  | true =>
    simp [markFailed, utcNow, tasksRepoUpdate, TaskUpdate.isUnsetAll,
      TaskUpdate.empty, publishEvent, redisPublish, findTask_map_upd, h, hp]
    refine ⟨_, _, ⟨rfl, rfl⟩, ?_, ?_, ?_, rfl, rfl, rfl⟩
    · simp [findTask_map_upd, h]
    · simp [applyTaskUpdate_status]
    · simp [applyTaskUpdate_error]
  | false =>
    simp [markFailed, utcNow, tasksRepoUpdate, TaskUpdate.isUnsetAll,
      TaskUpdate.empty, publishEvent, redisPublish, findTask_map_upd, h, hp]
    refine ⟨_, _, ⟨rfl, rfl⟩, ?_, ?_, ?_, rfl, rfl, rfl⟩
    · simp [findTask_map_upd, h]
    · simp [applyTaskUpdate_status]
    · simp [applyTaskUpdate_error]

/-- Behaviour of `TaskService.mark_completed` when the task id is absent
at update time: a `RuntimeError` is raised, nothing is published (not even
attempted) and no message is appended. -/
theorem markCompleted_absent (w : World) (env : Env) (task : Task)
    (a : MarkCompletedArgs) (h : findTask w.tasks task.task_id = none) :
    ∃ w', markCompleted w env task a =
      (.error (.runtimeError
        ("Task " ++ task.task_id ++ " not found during mark_completed.")), w') ∧
      w'.published = w.published ∧
      w'.pubCount = w.pubCount ∧
      w'.messages = w.messages := by
  simp [markCompleted, utcNow, tasksRepoUpdate, TaskUpdate.isUnsetAll,
    TaskUpdate.empty, findTask_map_upd, h]

/-- Behaviour of `TaskService.mark_failed` when the task id is absent at
update time: a `RuntimeError` is raised, nothing is published (not even
attempted) and no message is appended. -/
theorem markFailed_absent (w : World) (env : Env) (task : Task)
    (et m : String) (st : Option String)
    (h : findTask w.tasks task.task_id = none) :
    ∃ w', markFailed w env task et m st =
      (.error (.runtimeError
        ("Task " ++ task.task_id ++ " not found during mark_failed.")), w') ∧
      w'.published = w.published ∧
      w'.pubCount = w.pubCount ∧
      w'.messages = w.messages := by
  simp [markFailed, utcNow, tasksRepoUpdate, TaskUpdate.isUnsetAll,
    TaskUpdate.empty, findTask_map_upd, h]

/-- Frame composition. -/
theorem PipelineFrame.trans {w₁ w₂ w₃ : World}
    (h₁ : PipelineFrame w₁ w₂) (h₂ : PipelineFrame w₂ w₃) :
    PipelineFrame w₁ w₃ := by
  obtain ⟨a1, a2, a3, a4⟩ := h₁
  obtain ⟨b1, b2, b3, b4⟩ := h₂
  exact ⟨b1.trans a1, b2.trans a2, b3.trans a3, b4.trans a4⟩

/-- Frame of the classify node. -/
theorem classifyTaskNode_frame (w : World) (env : Env) (task : Task) :
    PipelineFrame w (classifyTaskNode w env task).2 := by
  unfold classifyTaskNode
  dsimp only
  (repeat' split) <;> exact ⟨rfl, rfl, rfl, rfl⟩

/-- Frame of the content generation node. -/
theorem generateContentNode_frame (w : World) (env : Env) :
    PipelineFrame w (generateContentNode w env).2 := by
  unfold generateContentNode
  dsimp only
  split <;> exact ⟨rfl, rfl, rfl, rfl⟩

/-- Frame of the content handler. -/
theorem contentAgentRun_frame (w : World) (env : Env) (task : Task) :
    PipelineFrame w (contentAgentRun w env task).2 := by
  unfold contentAgentRun
  have hf := generateContentNode_frame w env
  rcases hg : generateContentNode w env with ⟨r, w₁⟩
  rw [hg] at hf
  cases r <;> exact hf

/-- Frame of the code planning node. -/
theorem planTaskNode_frame (w : World) (env : Env) :
    PipelineFrame w (planTaskNode w env).2 := by
  unfold planTaskNode
  dsimp only
  (repeat' split) <;> exact ⟨rfl, rfl, rfl, rfl⟩

/-- Frame of the code generation node. -/
theorem generateCodeNode_frame (w : World) (env : Env) (plan : CodeTaskPlan) :
    PipelineFrame w (generateCodeNode w env plan).2 := by
  unfold generateCodeNode
  dsimp only
  (repeat' split) <;> exact ⟨rfl, rfl, rfl, rfl⟩

/-- Frame of the code handler. -/
theorem codeAgentRun_frame (w : World) (env : Env) (task : Task) :
    PipelineFrame w (codeAgentRun w env task).2 := by
  unfold codeAgentRun
  have hp := planTaskNode_frame w env
  rcases hgp : planTaskNode w env with ⟨rp, w₁⟩
  rw [hgp] at hp
  cases rp with
  | error e => exact hp
  | ok pr =>
    obtain ⟨plan, pu⟩ := pr
    dsimp only
    have hg := generateCodeNode_frame w₁ env plan
    rcases hgg : generateCodeNode w₁ env plan with ⟨rg, w₂⟩
    rw [hgg] at hg
    cases rg with
    | error e => exact PipelineFrame.trans hp hg
    | ok gr =>
      obtain ⟨artifact, gu⟩ := gr
      exact PipelineFrame.trans hp hg

/-- Frame of the execute node (registry dispatch). -/
theorem executeAgentNode_frame (w : World) (env : Env) (task : Task)
    (c : TaskClassification) :
    PipelineFrame w (executeAgentNode w env task c).2 := by
  unfold executeAgentNode
  split
  · exact contentAgentRun_frame w env task
  · split
    · exact codeAgentRun_frame w env task
    · exact ⟨rfl, rfl, rfl, rfl⟩

/-- Frame of the peer router graph run. -/
theorem peerRouterRun_frame (w : World) (env : Env) (task : Task) :
    PipelineFrame w (peerRouterRun w env task).2 := by
  unfold peerRouterRun
  have hc := classifyTaskNode_frame w env task
  rcases hgc : classifyTaskNode w env task with ⟨rc, w₁⟩
  rw [hgc] at hc
  cases rc with
  | error e => exact hc
  | ok classification =>
    dsimp only
    cases routeToAgentNode classification with
    | error e => exact hc
    | ok u =>
      dsimp only
      have he := executeAgentNode_frame w₁ env task classification
      rcases hge : executeAgentNode w₁ env task classification with ⟨re, w₂⟩
      rw [hge] at he
      cases re <;> exact PipelineFrame.trans hc he

/-- Frame of the whole peer-agent pipeline behind the orchestration
service boundary. -/
theorem orchestrationRunPeerAgent_frame (w : World) (env : Env) (task : Task) :
    PipelineFrame w (orchestrationRunPeerAgent w env task).2 := by
  unfold orchestrationRunPeerAgent
  have hr := peerRouterRun_frame w env task
  rcases hg : peerRouterRun w env task with ⟨r, w₁⟩
  rw [hg] at hr
  rcases r with e | r
  · cases e <;> exact hr
  · exact hr

/-- Frame of the session stamp: it never touches the task store, the
messages, the agent runs or the publish counter. -/
theorem sessionUpdateLastTask_frame (w : World) (sid tid : String) :
    (sessionUpdateLastTask w sid tid).2.tasks = w.tasks ∧
    (sessionUpdateLastTask w sid tid).2.pubCount = w.pubCount := by
  unfold sessionUpdateLastTask utcNow
  split <;> exact ⟨rfl, rfl⟩

/-- Behaviour of the worker's `except` clauses on a present task: every
caught exception is converted into a durably recorded `failed` state and
the handler itself raises nothing. -/
theorem markFailedRunSpec (w : World) (env : Env) (task : Task)
    (et m : String) (st : Option String) (t0 : Task)
    (h : findTask w.tasks task.task_id = some t0) :
    ∃ t' w',
      (match markFailed w env task et m st with
        | (.ok _, wx) => ((.ok () : Except PyErr Unit), wx)
        | (.error e', wx) => (.error e', wx)) = (.ok (), w') ∧
      findTask w'.tasks task.task_id = some t' ∧
      t'.status = .failed ∧
      t'.error = some ⟨some et, some m, st⟩ ∧
      w'.pubCount = w.pubCount + 1 := by
  obtain ⟨t', w', heq, hf, hst, her, har, hm, hp⟩ :=
    markFailed_spec w env task et m st t0 h
  rw [heq]
  exact ⟨t', w', rfl, hf, hst, her, hp⟩

/-- Behaviour of the worker's `except` clauses on a present task: every
caught exception is converted into a durably recorded `failed` state and
the handler itself raises nothing. -/
theorem processTaskHandleExc_spec (w : World) (env : Env) (task : Task)
    (e : PyErr) (t0 : Task) (h : findTask w.tasks task.task_id = some t0) :
    ∃ t' w', processTaskHandleExc w env task e = (.ok (), w') ∧
      findTask w'.tasks task.task_id = some t' ∧
      t'.status = .failed ∧
      w'.pubCount = w.pubCount + 1 := by
  unfold processTaskHandleExc
  cases e with
  | unknownTaskType m =>
    obtain ⟨t', w', heq, hf, hst, her, hp⟩ :=
      markFailedRunSpec w env task "UNKNOWN_TASK_TYPE" m none t0 h
    exact ⟨t', w', heq, hf, hst, hp⟩
  | llmError m =>
    obtain ⟨t', w', heq, hf, hst, her, hp⟩ :=
      markFailedRunSpec w env task "LLMError" m (some "traceback") t0 h
    exact ⟨t', w', heq, hf, hst, hp⟩
  | runtimeError m =>
    obtain ⟨t', w', heq, hf, hst, her, hp⟩ :=
      markFailedRunSpec w env task "RuntimeError" m (some "traceback") t0 h
    exact ⟨t', w', heq, hf, hst, hp⟩
  | attributeError m =>
    obtain ⟨t', w', heq, hf, hst, her, hp⟩ :=
      markFailedRunSpec w env task "AttributeError" m (some "traceback") t0 h
    exact ⟨t', w', heq, hf, hst, hp⟩
  | typeError m =>
    obtain ⟨t', w', heq, hf, hst, her, hp⟩ :=
      markFailedRunSpec w env task "TypeError" m (some "traceback") t0 h
    exact ⟨t', w', heq, hf, hst, hp⟩
  | valueError m =>
    obtain ⟨t', w', heq, hf, hst, her, hp⟩ :=
      markFailedRunSpec w env task "ValueError" m (some "traceback") t0 h
    exact ⟨t', w', heq, hf, hst, hp⟩
  | keyError m =>
    obtain ⟨t', w', heq, hf, hst, her, hp⟩ :=
      markFailedRunSpec w env task "KeyError" m (some "traceback") t0 h
    exact ⟨t', w', heq, hf, hst, hp⟩
  | infra c m =>
    obtain ⟨t', w', heq, hf, hst, her, hp⟩ :=
      markFailedRunSpec w env task c m (some "traceback") t0 h
    exact ⟨t', w', heq, hf, hst, hp⟩


/-- Master behaviour of the worker invocation on a present task, whatever
its current status and whatever the collaborators do: the invocation
returns without exception, the stored task ends in a terminal status, and
exactly two publish attempts are consumed (processing, then terminal). -/
theorem processTaskAsync_present_spec (w : World) (env : Env) (tid : String)
    (task : Task) (h : findTask w.tasks tid = some task) :
    ∃ t' w', processTaskAsync w env tid = (.ok (), w') ∧
      findTask w'.tasks tid = some t' ∧
      (t'.status = .completed ∨ t'.status = .failed) ∧
      w'.pubCount = w.pubCount + 2 := by
  unfold processTaskAsync
  rw [h]
  dsimp only
  obtain ⟨t₁, w₁, hmp, hf₁, hst₁, hid₁, hllm₁, har₁, hmsg₁, hsess₁, hpub₁⟩ :=
    markProcessing_spec w env tid task h
  rw [hmp]
  dsimp only
  have hor := orchestrationRunPeerAgent_frame w₁ env task
  rcases hg : orchestrationRunPeerAgent w₁ env task with ⟨r, w₂⟩
  rw [hg] at hor
  obtain ⟨hts₂, hms₂, hss₂, hpc₂⟩ := hor
  dsimp only at hts₂ hms₂ hss₂ hpc₂
  have hid : task.task_id = tid := findTask_some_id h
  have hf₂ : findTask w₂.tasks task.task_id = some t₁ := by
    rw [hts₂, hid]; exact hf₁
  cases r with
  | error e =>
    dsimp only
    obtain ⟨t', w', heq, hf, hst, hp⟩ :=
      processTaskHandleExc_spec w₂ env task e t₁ hf₂
    rw [heq]
    refine ⟨t', w', rfl, ?_, Or.inr hst, ?_⟩
    · rw [← hid]; exact hf
    · omega
  | ok pr =>
    obtain ⟨output, classification⟩ := pr
    dsimp only
    obtain ⟨t', w₃, heq, hf₃, hst₃, hcost₃, hres₃, har₃, hpc₃, hmsg₃⟩ :=
      markCompleted_spec w₂ env task
        { selected_agent := output.agent_name
          agent_type := classification.agent_type
          peer_reason := classification.reasoning
          content := output.content
          code_language := output.code_language
          citations := output.citations
          prompt_tokens := 0
          completion_tokens := 0
          model := "" } t₁ hf₂
    rw [heq]
    dsimp only
    cases hs : task.session_id with
    | none =>
      refine ⟨t', w₃, rfl, ?_, Or.inl hst₃, ?_⟩
      · rw [← hid]; exact hf₃
      · omega
    | some sid =>
      dsimp only
      by_cases hsid : sid = ""
      · simp only [hsid]
        refine ⟨t', w₃, ?_, ?_, Or.inl hst₃, ?_⟩
        · simp
        · rw [← hid]; exact hf₃
        · omega
      · simp only [if_pos (by exact hsid : ¬ sid = "")]
        have hsf := sessionUpdateLastTask_frame w₃ sid task.task_id
        rcases hsu : sessionUpdateLastTask w₃ sid task.task_id with ⟨u, w₄⟩
        rw [hsu] at hsf
        obtain ⟨hts₄, hpc₄⟩ := hsf
        dsimp only at hts₄ hpc₄
        dsimp only
        refine ⟨t', w₄, rfl, ?_, Or.inl hst₃, ?_⟩
        · rw [hts₄, ← hid]; exact hf₃
        · omega

/-- Behaviour of the worker invocation on a missing task: log and return,
with the world untouched. -/
theorem processTaskAsync_absent (w : World) (env : Env) (tid : String)
    (h : findTask w.tasks tid = none) :
    processTaskAsync w env tid = (.ok (), w) := by
  unfold processTaskAsync
  rw [h]

/-- Equation of the classify node on a successful parse and coercion: the
classification is returned and the router run is appended to the audit
store in the same step, before the routing gate ever sees the
classification. -/
theorem classifyTaskNode_eq (w : World) (env : Env) (task : Task)
    (res : LLMResult) (fields : List (String × PyJson))
    (c : TaskClassification)
    (hllm : env.llm w.llmCount = .ok res)
    (hload : env.pyLoads res.content = some (.obj fields))
    (hco : coerceClassification fields = .ok c) :
    classifyTaskNode w env task =
      (.ok c,
        { w with
            llmCount := w.llmCount + 1
            agentRuns := w.agentRuns ++ [routerAgentRun task res fields] }) := by
  unfold classifyTaskNode
  dsimp only
  rw [hllm]
  dsimp only
  rw [hload]
  dsimp only
  rw [hco]

/-- Equation of the classify node on a `json.loads` failure: the
`UnknownTaskTypeError` is raised and no `AgentRun` is persisted. -/
theorem classifyTaskNode_badJson (w : World) (env : Env) (task : Task)
    (res : LLMResult)
    (hllm : env.llm w.llmCount = .ok res)
    (hload : env.pyLoads res.content = none) :
    classifyTaskNode w env task =
      (.error (.unknownTaskType
        "Router could not classify task. Please clarify your request."),
        { w with llmCount := w.llmCount + 1 }) := by
  unfold classifyTaskNode
  dsimp only
  rw [hllm]
  dsimp only
  rw [hload]

/-- Equation of the peer router run when the classification coerces but
the routing gate rejects it: the gate error propagates while the router
run persisted by the classify node stays in the audit store. -/
theorem peerRouterRun_routeFail (w : World) (env : Env) (task : Task)
    (res : LLMResult) (fields : List (String × PyJson))
    (c : TaskClassification) (e : PyErr)
    (hllm : env.llm w.llmCount = .ok res)
    (hload : env.pyLoads res.content = some (.obj fields))
    (hco : coerceClassification fields = .ok c)
    (hroute : routeToAgentNode c = .error e) :
    peerRouterRun w env task =
      (.error e,
        { w with
            llmCount := w.llmCount + 1
            agentRuns := w.agentRuns ++ [routerAgentRun task res fields] }) := by
  unfold peerRouterRun
  rw [classifyTaskNode_eq w env task res fields c hllm hload hco]
  dsimp only
  rw [hroute]

/-- C5: for every classification whose agent name is a recognized handler
identity, the routing gate of `_route_to_agent_node` accepts exactly the
confidences that are not below 0.6 (so 0.60 is accepted), and rejects the
rest with the `UnknownTaskTypeError` that realizes the spec's
`RoutingError` (so 0.599 is rejected). -/
theorem claim_C5 (c : TaskClassification)
    (h : c.agent_name = "ContentAgent" ∨ c.agent_name = "CodeAgent") :
    (routeToAgentNode c = .ok () ↔ ¬(c.confidence < 6 / 10)) ∧
    (c.confidence < 6 / 10 ↔ routeToAgentNode c =
      .error (.unknownTaskType
        "Router is not confident about the task type. Please provide more details.")) ∧
    (c.confidence = 6 / 10 → routeToAgentNode c = .ok ()) ∧
    (c.confidence = 599 / 1000 → routeToAgentNode c =
      .error (.unknownTaskType
        "Router is not confident about the task type. Please provide more details.")) := by
  unfold routeToAgentNode
  rw [if_neg (not_not_intro h)]
  have hq : (mkRat 6 10 : ℚ) = 6 / 10 := by norm_num [mkRat]
  rw [hq]
  refine ⟨?_, ?_, ?_, ?_⟩
  · by_cases hc : c.confidence < 6 / 10 <;> simp [hc]
  · by_cases hc : c.confidence < 6 / 10 <;> simp [hc]
  · intro hev
    rw [hev]
    norm_num
  · intro hev
    rw [if_pos (by rw [hev]; norm_num)]

/-- Witness for C5 at the two boundary confidences. -/
theorem claim_C5_witness :
    (routeToAgentNode ⟨"ContentAgent", "content", 6 / 10, ""⟩ = .ok ()) ∧
    (routeToAgentNode ⟨"ContentAgent", "content", 599 / 1000, ""⟩ =
      .error (.unknownTaskType
        "Router is not confident about the task type. Please provide more details.")) :=
  ⟨(claim_C5 ⟨"ContentAgent", "content", 6 / 10, ""⟩ (Or.inl rfl)).2.2.1 rfl,
   (claim_C5 ⟨"ContentAgent", "content", 599 / 1000, ""⟩ (Or.inl rfl)).2.2.2 rfl⟩

/-- The reference loop with its running counter enumerates exactly the
url-bearing citations, in order, numbered consecutively from the start
index. -/
theorem refEntryLines_eq_filter (cs : List Citation) (n : Nat) :
    refEntryLines cs n =
      ((cs.filter citationHasUrl).enumFrom n).map
        (fun p => renderCitationEntry p.1 p.2) := by
  induction cs generalizing n with
  | nil => rfl
  | cons c rest ih =>
    by_cases h : citationHasUrl c
    · simp [refEntryLines, h, List.filter_cons, List.enumFrom, ih]
    · simp [refEntryLines, h, List.filter_cons, ih]

/-- C7: the deterministic post-processing of the content handler agrees,
for every content string and citation list, with the spec-side
description: content with an existing references section is unchanged;
otherwise, when at least one citation has a resolvable URL, the numbered
list of exactly the url-bearing citations (one entry each, in order) is
appended; otherwise the content is unchanged. -/
theorem claim_C7 (content : String) (citations : List Citation) :
    appendReferenceSectionIfMissing content citations =
      appendReferencesSpec content citations := by
  unfold appendReferenceSectionIfMissing appendReferencesSpec
  cases citations with
  | nil => simp
  | cons c cs =>
    by_cases h2 : hasReferencesSection content
    · simp [h2]
    · simp only [h2, List.isEmpty_cons, Bool.false_eq_true, if_false, if_neg]
      rw [refEntryLines_eq_filter]
      by_cases h3 : (c :: cs).filter citationHasUrl = []
      · simp [h3]
      · simp [h3, List.isEmpty_iff]

/-- C1 counterexample: invoking the worker on a task whose status is
already `completed` does not return without side effects — the stored task
is mutated (here it ends `failed` after an unreachable Model Service) and
two transition events are published. -/
theorem claim_C1_counterexample :
    doneTask.status = .completed ∧
    (processTaskAsync worldDone envTrivial "t1").2.tasks.map Task.status =
      [TaskStatus.failed] ∧
    (processTaskAsync worldDone envTrivial "t1").2.pubCount = 2 ∧
    (processTaskAsync worldDone envTrivial "t1").2.published.length = 2 :=
  ⟨rfl, rfl, rfl, rfl⟩

/-- C1 (amended): the only precondition guard of `_process_task_async` is
the missing-task check; a present task is re-processed whatever its
status: the worker marks it processing and consumes exactly two publish
attempts, instead of returning without side effects. -/
theorem claim_C1_amended (w : World) (env : Env) (tid : String) :
    (findTask w.tasks tid = none → processTaskAsync w env tid = (.ok (), w)) ∧
    (∀ task, findTask w.tasks tid = some task →
      ∃ t' w', processTaskAsync w env tid = (.ok (), w') ∧
        findTask w'.tasks tid = some t' ∧
        w'.pubCount = w.pubCount + 2) := by
  constructor
  · exact processTaskAsync_absent w env tid
  · intro task h
    obtain ⟨t', w', heq, hf, _, hp⟩ :=
      processTaskAsync_present_spec w env tid task h
    exact ⟨t', w', heq, hf, hp⟩

/-- Witness for the amended C1: the missing-task branch on an empty store
and the present-task branch on an already-completed task. -/
theorem claim_C1_amended_witness :
    processTaskAsync emptyWorld envTrivial "t1" = (.ok (), emptyWorld) ∧
    ∃ t' w', processTaskAsync worldDone envTrivial "t1" = (.ok (), w') ∧
      findTask w'.tasks "t1" = some t' ∧
      w'.pubCount = worldDone.pubCount + 2 :=
  ⟨(claim_C1_amended emptyWorld envTrivial "t1").1 rfl,
   (claim_C1_amended worldDone envTrivial "t1").2 doneTask rfl⟩

/-- C2: on an existing task, whatever the collaborators do (Model Service
failures, unparsable payloads, routing rejections, publish failures), the
worker invocation raises nothing and the stored task ends in a terminal
status — never stuck in `processing`. -/
theorem claim_C2 (w : World) (env : Env) (tid : String) (task : Task)
    (h : findTask w.tasks tid = some task) :
    (processTaskAsync w env tid).1 = .ok () ∧
    ∃ t', findTask (processTaskAsync w env tid).2.tasks tid = some t' ∧
      (t'.status = .completed ∨ t'.status = .failed) := by
  obtain ⟨t', w', heq, hf, hst, _⟩ :=
    processTaskAsync_present_spec w env tid task h
  rw [heq]
  exact ⟨rfl, t', hf, hst⟩

/-- Witness for C2 on a queued task with an unreachable Model Service. -/
theorem claim_C2_witness :
    (processTaskAsync worldQueued envTrivial "t1").1 = .ok () ∧
    ∃ t', findTask (processTaskAsync worldQueued envTrivial "t1").2.tasks
        "t1" = some t' ∧
      (t'.status = .completed ∨ t'.status = .failed) :=
  claim_C2 worldQueued envTrivial "t1" sampleTask rfl

/-- C3 at its failing input: a content run that completes with Model
Service usage 10/20 (router) and 100/200 (handler) persists a zero token
cost, and the only `AgentRun` in the audit store is the router's — the
handler emitted none, so no usage was aggregated or returned. -/
theorem claim_C3 :
    (processTaskAsync worldQueued envContent "t1").1 = .ok () ∧
    (processTaskAsync worldQueued envContent "t1").2.tasks.map Task.status =
      [TaskStatus.completed] ∧
    (processTaskAsync worldQueued envContent "t1").2.tasks.map Task.cost =
      [some ⟨some 0, some 0, some 0, none⟩] ∧
    (processTaskAsync worldQueued envContent "t1").2.agentRuns.map
      AgentRun.agent_role = ["router"] :=
  ⟨rfl, rfl, rfl, rfl⟩

/-- C4 counterexample: when the routing Model Service output is not
parseable JSON, the classify node raises before persisting anything, the
task fails, and the audit store holds no `AgentRun` at all — the failed
routing exchange is not auditable. -/
theorem claim_C4_counterexample :
    (classifyTaskNode worldQueued envBadJson sampleTask).1 =
      .error (.unknownTaskType
        "Router could not classify task. Please clarify your request.") ∧
    (classifyTaskNode worldQueued envBadJson sampleTask).2.agentRuns = [] ∧
    (processTaskAsync worldQueued envBadJson "t1").2.tasks.map Task.status =
      [TaskStatus.failed] ∧
    (processTaskAsync worldQueued envBadJson "t1").2.agentRuns = [] :=
  ⟨rfl, rfl, rfl, rfl⟩

/-- C4 (amended): an `AgentRun` capturing the raw exchange is persisted
for every classification that parses to an object and coerces
successfully, and this happens at classify time — before the confidence
gate — so a low-confidence (or unknown-name) routing rejection still
leaves the router run in the audit store; but an unparsable payload
raises before anything is persisted. -/
theorem claim_C4_amended (w : World) (env : Env) (task : Task)
    (res : LLMResult) (fields : List (String × PyJson))
    (c : TaskClassification)
    (hllm : env.llm w.llmCount = .ok res)
    (hload : env.pyLoads res.content = some (.obj fields))
    (hco : coerceClassification fields = .ok c) :
    (∃ run, classifyTaskNode w env task =
        (.ok c, { w with
            llmCount := w.llmCount + 1
            agentRuns := w.agentRuns ++ [run] }) ∧
      run.agent_role = "router" ∧ run.task_id = task.task_id) ∧
    (∀ e, routeToAgentNode c = .error e →
      (peerRouterRun w env task).1 = .error e ∧
      (peerRouterRun w env task).2.agentRuns =
        w.agentRuns ++ [routerAgentRun task res fields]) := by
  constructor
  · exact ⟨routerAgentRun task res fields,
      classifyTaskNode_eq w env task res fields c hllm hload hco, rfl, rfl⟩
  · intro e he
    rw [peerRouterRun_routeFail w env task res fields c e hllm hload hco he]
    exact ⟨rfl, rfl⟩

/-- Witness for the amended C4 at a concrete low-confidence payload. -/
theorem claim_C4_amended_witness :
    (∃ run, classifyTaskNode worldQueued envLowConf sampleTask =
        (.ok ⟨"ContentAgent", "content", mkRat 1 2, "unsure"⟩,
          { worldQueued with
              llmCount := worldQueued.llmCount + 1
              agentRuns := worldQueued.agentRuns ++ [run] }) ∧
      run.agent_role = "router" ∧ run.task_id = sampleTask.task_id) ∧
    (∀ e, routeToAgentNode ⟨"ContentAgent", "content", mkRat 1 2, "unsure"⟩ =
        .error e →
      (peerRouterRun worldQueued envLowConf sampleTask).1 = .error e ∧
      (peerRouterRun worldQueued envLowConf sampleTask).2.agentRuns =
        worldQueued.agentRuns ++
          [routerAgentRun sampleTask ⟨"CLS", ⟨10, 20, 30⟩, "gpt"⟩
            lowConfPayload]) :=
  claim_C4_amended worldQueued envLowConf sampleTask
    ⟨"CLS", ⟨10, 20, 30⟩, "gpt"⟩ lowConfPayload
    ⟨"ContentAgent", "content", mkRat 1 2, "unsure"⟩ rfl rfl rfl

/-- C10: a terminal transition on a vanished task surfaces as a
`RuntimeError` from `mark_completed`/`mark_failed`, and in that case no
transition event is published (none is even attempted) and no assistant
message is appended. -/
theorem claim_C10 (w : World) (env : Env) (task : Task)
    (a : MarkCompletedArgs) (et m : String) (st : Option String)
    (h : findTask w.tasks task.task_id = none) :
    (∃ w', markCompleted w env task a =
        (.error (.runtimeError
          ("Task " ++ task.task_id ++ " not found during mark_completed.")),
          w') ∧
      w'.published = w.published ∧ w'.pubCount = w.pubCount ∧
      w'.messages = w.messages) ∧
    (∃ w', markFailed w env task et m st =
        (.error (.runtimeError
          ("Task " ++ task.task_id ++ " not found during mark_failed.")),
          w') ∧
      w'.published = w.published ∧ w'.pubCount = w.pubCount ∧
      w'.messages = w.messages) :=
  ⟨markCompleted_absent w env task a h, markFailed_absent w env task et m st h⟩

/-- Witness for C10 on an empty store. -/
theorem claim_C10_witness :
    (∃ w', markCompleted emptyWorld envTrivial sampleTask sampleArgs =
        (.error (.runtimeError
          ("Task " ++ sampleTask.task_id ++
            " not found during mark_completed.")), w') ∧
      w'.published = emptyWorld.published ∧
      w'.pubCount = emptyWorld.pubCount ∧
      w'.messages = emptyWorld.messages) ∧
    (∃ w', markFailed emptyWorld envTrivial sampleTask "LLMError" "boom"
        none =
        (.error (.runtimeError
          ("Task " ++ sampleTask.task_id ++
            " not found during mark_failed.")), w') ∧
      w'.published = emptyWorld.published ∧
      w'.pubCount = emptyWorld.pubCount ∧
      w'.messages = emptyWorld.messages) :=
  claim_C10 emptyWorld envTrivial sampleTask sampleArgs "LLMError" "boom"
    none rfl


/-- C6: a classification whose agent name is not a recognized handler
identity fails the routing gate with the `UnknownTaskTypeError` realizing
the spec's `RoutingError`, for every confidence value — and the worker
records the task as `failed` with the `UNKNOWN_TASK_TYPE` error kind. -/
theorem claim_C6 (c : TaskClassification)
    (h1 : c.agent_name ≠ "ContentAgent") (h2 : c.agent_name ≠ "CodeAgent")
    (w : World) (env : Env) (tid : String) (task : Task) (res : LLMResult)
    (fields : List (String × PyJson))
    (hw : findTask w.tasks tid = some task)
    (hllm : env.llm w.llmCount = .ok res)
    (hload : env.pyLoads res.content = some (.obj fields))
    (hco : coerceClassification fields = .ok c) :
    routeToAgentNode c = .error (.unknownTaskType
      "Task cannot be routed to a known agent. Please rephrase your request.") ∧
    ∃ t' w', processTaskAsync w env tid = (.ok (), w') ∧
      findTask w'.tasks tid = some t' ∧
      t'.status = .failed ∧
      t'.error = some ⟨some "UNKNOWN_TASK_TYPE",
        some "Task cannot be routed to a known agent. Please rephrase your request.",
        none⟩ := by
  have hroute : routeToAgentNode c = .error (.unknownTaskType
      "Task cannot be routed to a known agent. Please rephrase your request.") := by
    unfold routeToAgentNode
    rw [if_pos]
    intro hor
    rcases hor with ha | ha
    · exact h1 ha
    · exact h2 ha
  refine ⟨hroute, ?_⟩
  unfold processTaskAsync
  rw [hw]
  dsimp only
  obtain ⟨t₁, w₁, hmp, hf₁, hst₁, hid₁, hllm₁, har₁, hmsg₁, hsess₁, hpub₁⟩ :=
    markProcessing_spec w env tid task hw
  rw [hmp]
  dsimp only
  have hllm' : env.llm w₁.llmCount = .ok res := by rw [hllm₁]; exact hllm
  have hpeer := peerRouterRun_routeFail w₁ env task res fields c _ hllm' hload
    hco hroute
  have horc : orchestrationRunPeerAgent w₁ env task =
      (.error (.unknownTaskType
        "Task cannot be routed to a known agent. Please rephrase your request."),
        { w₁ with
            llmCount := w₁.llmCount + 1
            agentRuns := w₁.agentRuns ++ [routerAgentRun task res fields] }) := by
    unfold orchestrationRunPeerAgent
    rw [hpeer]
  rw [horc]
  dsimp only
  unfold processTaskHandleExc
  dsimp only
  have hid : task.task_id = tid := findTask_some_id hw
  have hf₂ : findTask ({ w₁ with
      llmCount := w₁.llmCount + 1
      agentRuns := w₁.agentRuns ++ [routerAgentRun task res fields] } :
        World).tasks task.task_id = some t₁ := by
    rw [hid]
    exact hf₁
  obtain ⟨t', w', heq, hf, hst, her, hp⟩ :=
    markFailedRunSpec _ env task "UNKNOWN_TASK_TYPE"
      "Task cannot be routed to a known agent. Please rephrase your request."
      none t₁ hf₂
  refine ⟨t', w', heq, ?_, hst, her⟩
  rw [← hid]
  exact hf

/-- Witness for C6: a high-confidence classification naming `Unknown`
still fails the task with the `UNKNOWN_TASK_TYPE` error kind. -/
theorem claim_C6_witness :
    routeToAgentNode ⟨"Unknown", "unknown", mkRat 95 100, "confused"⟩ =
      .error (.unknownTaskType
        "Task cannot be routed to a known agent. Please rephrase your request.") ∧
    ∃ t' w', processTaskAsync worldQueued envUnknown "t1" = (.ok (), w') ∧
      findTask w'.tasks "t1" = some t' ∧
      t'.status = .failed ∧
      t'.error = some ⟨some "UNKNOWN_TASK_TYPE",
        some "Task cannot be routed to a known agent. Please rephrase your request.",
        none⟩ :=
  claim_C6 ⟨"Unknown", "unknown", mkRat 95 100, "confused"⟩ (by decide)
    (by decide) worldQueued envUnknown "t1" sampleTask
    ⟨"CLS", ⟨10, 20, 30⟩, "gpt"⟩ unknownPayload rfl rfl rfl rfl

/-- Equation of the code handler when the planning output is unparsable
JSON and the generation output is also unparsable: the default plan is
substituted, generation proceeds and the raw generation text becomes the
code body. -/
theorem codeAgentRun_defaultPlan_eq (w : World) (env : Env) (task : Task)
    (r1 r2 : LLMResult)
    (h1 : env.llm w.llmCount = .ok r1)
    (hl1 : env.pyLoads r1.content = none)
    (h2 : env.llm (w.llmCount + 1) = .ok r2)
    (hl2 : env.pyLoads r2.content = none) :
    codeAgentRun w env task =
      (.ok ⟨"CodeAgent",
        codeContentOf ⟨"python",
          "Generated code based on the request and planning information.",
          r2.content⟩,
        some "python", []⟩,
        { w with llmCount := w.llmCount + 1 + 1 }) := by
  unfold codeAgentRun planTaskNode generateCodeNode
  dsimp only
  rw [h1]
  dsimp only
  rw [hl1]
  dsimp only
  rw [h2]
  dsimp only
  rw [hl2]
  rfl


example : (fallbackPlan.language ≠ "") = True := by simp [fallbackPlan]

example : (if fallbackPlan.language ≠ "" then fallbackPlan.language else "py") = "python" := rfl

/-- C8: when the planning Model Service call of the code handler returns
unparsable JSON, the handler substitutes the fixed default plan (language
`python`, tests not required) instead of raising, proceeds to the
generation stage, and the worker still records the task as `completed`. -/
theorem claim_C8 (w : World) (env : Env) (tid : String) (task : Task)
    (r0 r1 r2 : LLMResult) (fields : List (String × PyJson))
    (c : TaskClassification)
    (hw : findTask w.tasks tid = some task)
    (h0 : env.llm w.llmCount = .ok r0)
    (hl0 : env.pyLoads r0.content = some (.obj fields))
    (hc0 : coerceClassification fields = .ok c)
    (hname : c.agent_name = "CodeAgent")
    (hconf : ¬(c.confidence < mkRat 6 10))
    (h1 : env.llm (w.llmCount + 1) = .ok r1)
    (hl1 : env.pyLoads r1.content = none)
    (h2 : env.llm (w.llmCount + 1 + 1) = .ok r2)
    (hl2 : env.pyLoads r2.content = none) :
    fallbackPlan.language = "python" ∧
    fallbackPlan.tests_required = false ∧
    (∀ w₀ : World, w₀.llmCount = w.llmCount + 1 →
      planTaskNode w₀ env = (.ok (fallbackPlan, r1.usage),
        { w₀ with llmCount := w₀.llmCount + 1 })) ∧
    ∃ t' w', processTaskAsync w env tid = (.ok (), w') ∧
      findTask w'.tasks tid = some t' ∧
      t'.status = .completed ∧
      t'.result = some ⟨none,
        some (codeContentOf ⟨"python",
          "Generated code based on the request and planning information.",
          r2.content⟩),
        some "python", []⟩ := by
  refine ⟨rfl, rfl, ?_, ?_⟩
  · intro w₀ hW
    unfold planTaskNode
    dsimp only
    rw [hW, h1]
    dsimp only
    rw [hl1]
  · unfold processTaskAsync
    rw [hw]
    dsimp only
    obtain ⟨t₁, w₁, hmp, hf₁, hst₁, hid₁, hllm₁, har₁, hmsg₁, hsess₁, hpub₁⟩ :=
      markProcessing_spec w env tid task hw
    rw [hmp]
    dsimp only
    have h0' : env.llm w₁.llmCount = .ok r0 := by rw [hllm₁]; exact h0
    have hcls := classifyTaskNode_eq w₁ env task r0 fields c h0' hl0 hc0
    have hroute : routeToAgentNode c = .ok () := by
      unfold routeToAgentNode
      rw [if_neg (not_not_intro (Or.inr hname)), if_neg hconf]
    have hcode := codeAgentRun_defaultPlan_eq
      ({ w₁ with
          llmCount := w₁.llmCount + 1
          agentRuns := w₁.agentRuns ++ [routerAgentRun task r0 fields] } :
        World) env task r1 r2
      (by dsimp only; rw [hllm₁]; exact h1) hl1
      (by dsimp only; rw [hllm₁]; exact h2) hl2
    have hpeer : peerRouterRun w₁ env task =
        (.ok (⟨"CodeAgent",
          codeContentOf ⟨"python",
            "Generated code based on the request and planning information.",
            r2.content⟩,
          some "python", []⟩, c),
          { w₁ with
              llmCount := w₁.llmCount + 1 + 1 + 1
              agentRuns := w₁.agentRuns ++ [routerAgentRun task r0 fields] }) := by
      unfold peerRouterRun
      rw [hcls]
      dsimp only
      rw [hroute]
      dsimp only
      unfold executeAgentNode
      rw [if_neg (by rw [hname]; decide), if_pos hname]
      rw [hcode]
    have horc : orchestrationRunPeerAgent w₁ env task =
        (.ok (⟨"CodeAgent",
          codeContentOf ⟨"python",
            "Generated code based on the request and planning information.",
            r2.content⟩,
          some "python", []⟩, c),
          { w₁ with
              llmCount := w₁.llmCount + 1 + 1 + 1
              agentRuns := w₁.agentRuns ++ [routerAgentRun task r0 fields] }) := by
      unfold orchestrationRunPeerAgent
      rw [hpeer]
    rw [horc]
    dsimp only
    have hid : task.task_id = tid := findTask_some_id hw
    have hf₂ : findTask ({ w₁ with
        llmCount := w₁.llmCount + 1 + 1 + 1
        agentRuns := w₁.agentRuns ++ [routerAgentRun task r0 fields] } :
          World).tasks task.task_id = some t₁ := by
      rw [hid]
      exact hf₁
    obtain ⟨t', w₃, heqC, hf₃, hst₃, hcost₃, hres₃, har₃, hpc₃, hmm₃⟩ :=
      markCompleted_spec _ env task _ t₁ hf₂
    rw [heqC]
    dsimp only
    cases hs : task.session_id with
    | none =>
      refine ⟨t', w₃, rfl, ?_, hst₃, hres₃⟩
      rw [← hid]
      exact hf₃
    | some sid =>
      dsimp only
      by_cases hsid : sid = ""
      · rw [if_neg (by simp [hsid])]
        refine ⟨t', w₃, rfl, ?_, hst₃, hres₃⟩
        rw [← hid]
        exact hf₃
      · rw [if_pos (by exact hsid : ¬ sid = "")]
        have hsf := sessionUpdateLastTask_frame w₃ sid task.task_id
        rcases hsu : sessionUpdateLastTask w₃ sid task.task_id with ⟨u, w₄⟩
        rw [hsu] at hsf
        obtain ⟨hts₄, hpc₄⟩ := hsf
        dsimp only at hts₄
        dsimp only
        refine ⟨t', w₄, rfl, ?_, hst₃, hres₃⟩
        rw [hts₄, ← hid]
        exact hf₃

/-- Witness for C8 on a concrete code task with unparsable planning and
generation outputs. -/
theorem claim_C8_witness :
    fallbackPlan.language = "python" ∧
    fallbackPlan.tests_required = false ∧
    (∀ w₀ : World, w₀.llmCount = worldQueued.llmCount + 1 →
      planTaskNode w₀ envCodePlanBad = (.ok (fallbackPlan, ⟨4, 5, 9⟩),
        { w₀ with llmCount := w₀.llmCount + 1 })) ∧
    ∃ t' w', processTaskAsync worldQueued envCodePlanBad "t1" = (.ok (), w') ∧
      findTask w'.tasks "t1" = some t' ∧
      t'.status = .completed ∧
      t'.result = some ⟨none,
        some (codeContentOf ⟨"python",
          "Generated code based on the request and planning information.",
          "def f(): pass"⟩),
        some "python", []⟩ :=
  claim_C8 worldQueued envCodePlanBad "t1" sampleTask
    ⟨"CLS", ⟨10, 20, 30⟩, "gpt"⟩ ⟨"PLAN GIBBERISH", ⟨4, 5, 9⟩, "gpt"⟩
    ⟨"def f(): pass", ⟨6, 7, 13⟩, "gpt"⟩ codePayload
    ⟨"CodeAgent", "code", mkRat 9 10, "code request"⟩
    rfl rfl rfl rfl rfl (by decide) rfl rfl rfl rfl

/-- Core equality is componentwise equality of everything except the
delivered publishes. -/
theorem core_eq_iff {w w' : World} :
    w.core = w'.core ↔
      (w.tasks = w'.tasks ∧ w.agentRuns = w'.agentRuns ∧
        w.messages = w'.messages ∧ w.sessions = w'.sessions ∧
        w.clock = w'.clock ∧ w.llmCount = w'.llmCount ∧
        w.pubCount = w'.pubCount) := by
  cases w
  cases w'
  simp [World.core]

theorem publishEvent_pubIndep (w w' : World) (env : Env) (p : Nat → Bool)
    (tid : String) (pl : EventPayload) (h : w.core = w'.core) :
    (publishEvent w { env with publishOk := p } tid pl).1 = .ok () ∧
    (publishEvent w' env tid pl).1 = .ok () ∧
    (publishEvent w { env with publishOk := p } tid pl).2.core =
      (publishEvent w' env tid pl).2.core := by
  obtain ⟨tk, ar, ms, ss, pb, ck, lc, pc⟩ := w
  obtain ⟨tk', ar', ms', ss', pb', ck', lc', pc'⟩ := w'
  obtain ⟨h1, h2, h3, h4, h5, h6, h7⟩ := core_eq_iff.mp h
  dsimp only at h1 h2 h3 h4 h5 h6 h7
  subst h1 h2 h3 h4 h5 h6 h7
  unfold publishEvent redisPublish
  dsimp only
  cases p pc <;> cases env.publishOk pc <;>
    exact ⟨rfl, rfl, rfl⟩

theorem markProcessing_pubIndep (w w' : World) (env : Env) (p : Nat → Bool)
    (tid : String) (h : w.core = w'.core) :
    (markProcessing w { env with publishOk := p } tid).1 =
      (markProcessing w' env tid).1 ∧
    (markProcessing w { env with publishOk := p } tid).2.core =
      (markProcessing w' env tid).2.core := by
  obtain ⟨tk, ar, ms, ss, pb, ck, lc, pc⟩ := w
  obtain ⟨tk', ar', ms', ss', pb', ck', lc', pc'⟩ := w'
  obtain ⟨h1, h2, h3, h4, h5, h6, h7⟩ := core_eq_iff.mp h
  dsimp only at h1 h2 h3 h4 h5 h6 h7
  subst h1 h2 h3 h4 h5 h6 h7
  cases hf : findTask tk tid with
  | none =>
    simp [markProcessing, utcNow, tasksRepoUpdate, TaskUpdate.isUnsetAll,
      TaskUpdate.empty, publishEvent, redisPublish, findTask_map_upd, hf,
      World.core]
  | some t =>
    cases hpk : p pc <;> cases hpe : env.publishOk pc <;>
      simp [markProcessing, utcNow, tasksRepoUpdate, TaskUpdate.isUnsetAll,
        TaskUpdate.empty, publishEvent, redisPublish, findTask_map_upd, hf,
        hpk, hpe, applyTaskUpdate_started_at, World.core]

theorem markCompleted_pubIndep (w w' : World) (env : Env) (p : Nat → Bool)
    (task : Task) (a : MarkCompletedArgs) (h : w.core = w'.core) :
    (markCompleted w { env with publishOk := p } task a).1 =
      (markCompleted w' env task a).1 ∧
    (markCompleted w { env with publishOk := p } task a).2.core =
      (markCompleted w' env task a).2.core := by
  obtain ⟨tk, ar, ms, ss, pb, ck, lc, pc⟩ := w
  obtain ⟨tk', ar', ms', ss', pb', ck', lc', pc'⟩ := w'
  obtain ⟨h1, h2, h3, h4, h5, h6, h7⟩ := core_eq_iff.mp h
  dsimp only at h1 h2 h3 h4 h5 h6 h7
  subst h1 h2 h3 h4 h5 h6 h7
  cases hf : findTask tk task.task_id with
  | none =>
    simp [markCompleted, utcNow, tasksRepoUpdate, TaskUpdate.isUnsetAll,
      TaskUpdate.empty, publishEvent, redisPublish, findTask_map_upd, hf,
      World.core]
  | some t =>
    cases hpk : p pc <;> cases hpe : env.publishOk pc <;>
      simp [markCompleted, utcNow, tasksRepoUpdate, TaskUpdate.isUnsetAll,
        TaskUpdate.empty, publishEvent, redisPublish, findTask_map_upd, hf,
        hpk, hpe, World.core]

theorem markFailed_pubIndep (w w' : World) (env : Env) (p : Nat → Bool)
    (task : Task) (et m : String) (st : Option String) (h : w.core = w'.core) :
    (markFailed w { env with publishOk := p } task et m st).1 =
      (markFailed w' env task et m st).1 ∧
    (markFailed w { env with publishOk := p } task et m st).2.core =
      (markFailed w' env task et m st).2.core := by
  obtain ⟨tk, ar, ms, ss, pb, ck, lc, pc⟩ := w
  obtain ⟨tk', ar', ms', ss', pb', ck', lc', pc'⟩ := w'
  obtain ⟨h1, h2, h3, h4, h5, h6, h7⟩ := core_eq_iff.mp h
  dsimp only at h1 h2 h3 h4 h5 h6 h7
  subst h1 h2 h3 h4 h5 h6 h7
  cases hf : findTask tk task.task_id with
  | none =>
    simp [markFailed, utcNow, tasksRepoUpdate, TaskUpdate.isUnsetAll,
      TaskUpdate.empty, publishEvent, redisPublish, findTask_map_upd, hf,
      World.core]
  | some t =>
    cases hpk : p pc <;> cases hpe : env.publishOk pc <;>
      simp [markFailed, utcNow, tasksRepoUpdate, TaskUpdate.isUnsetAll,
        TaskUpdate.empty, publishEvent, redisPublish, findTask_map_upd, hf,
        hpk, hpe, World.core]

theorem sessionUpdateLastTask_pubIndep (w w' : World) (sid tid : String)
    (h : w.core = w'.core) :
    (sessionUpdateLastTask w sid tid).2.core =
      (sessionUpdateLastTask w' sid tid).2.core := by
  obtain ⟨tk, ar, ms, ss, pb, ck, lc, pc⟩ := w
  obtain ⟨tk', ar', ms', ss', pb', ck', lc', pc'⟩ := w'
  obtain ⟨h1, h2, h3, h4, h5, h6, h7⟩ := core_eq_iff.mp h
  dsimp only at h1 h2 h3 h4 h5 h6 h7
  subst h1 h2 h3 h4 h5 h6 h7
  cases hf : ss.find? (fun q => q.fst = sid) <;>
    simp [sessionUpdateLastTask, utcNow, hf, World.core]

theorem classifyTaskNode_pubIndep (w w' : World) (env : Env) (p : Nat → Bool)
    (task : Task) (h : w.core = w'.core) :
    (classifyTaskNode w { env with publishOk := p } task).1 =
      (classifyTaskNode w' env task).1 ∧
    (classifyTaskNode w { env with publishOk := p } task).2.core =
      (classifyTaskNode w' env task).2.core := by
  obtain ⟨tk, ar, ms, ss, pb, ck, lc, pc⟩ := w
  obtain ⟨tk', ar', ms', ss', pb', ck', lc', pc'⟩ := w'
  obtain ⟨h1, h2, h3, h4, h5, h6, h7⟩ := core_eq_iff.mp h
  dsimp only at h1 h2 h3 h4 h5 h6 h7
  subst h1 h2 h3 h4 h5 h6 h7
  cases hx : env.llm lc with
  | error e => simp [classifyTaskNode, hx, World.core]
  | ok r =>
    cases hy : env.pyLoads r.content with
    | none => simp [classifyTaskNode, hx, hy, World.core]
    | some j =>
      cases j <;> simp [classifyTaskNode, hx, hy, World.core]
      case obj fields =>
        cases hz : coerceClassification fields <;>
          simp [classifyTaskNode, hx, hy, hz, World.core]

theorem generateContentNode_pubIndep (w w' : World) (env : Env)
    (p : Nat → Bool) (h : w.core = w'.core) :
    (generateContentNode w { env with publishOk := p }).1 =
      (generateContentNode w' env).1 ∧
    (generateContentNode w { env with publishOk := p }).2.core =
      (generateContentNode w' env).2.core := by
  obtain ⟨tk, ar, ms, ss, pb, ck, lc, pc⟩ := w
  obtain ⟨tk', ar', ms', ss', pb', ck', lc', pc'⟩ := w'
  obtain ⟨h1, h2, h3, h4, h5, h6, h7⟩ := core_eq_iff.mp h
  dsimp only at h1 h2 h3 h4 h5 h6 h7
  subst h1 h2 h3 h4 h5 h6 h7
  cases hx : env.llm lc <;> simp [generateContentNode, hx, World.core]

theorem searchWebNode_pubIndep (env : Env) (p : Nat → Bool) :
    searchWebNode { env with publishOk := p } = searchWebNode env := rfl

theorem contentAgentRun_pubIndep (w w' : World) (env : Env) (p : Nat → Bool)
    (task : Task) (h : w.core = w'.core) :
    (contentAgentRun w { env with publishOk := p } task).1 =
      (contentAgentRun w' env task).1 ∧
    (contentAgentRun w { env with publishOk := p } task).2.core =
      (contentAgentRun w' env task).2.core := by
  obtain ⟨tk, ar, ms, ss, pb, ck, lc, pc⟩ := w
  obtain ⟨tk', ar', ms', ss', pb', ck', lc', pc'⟩ := w'
  obtain ⟨h1, h2, h3, h4, h5, h6, h7⟩ := core_eq_iff.mp h
  dsimp only at h1 h2 h3 h4 h5 h6 h7
  subst h1 h2 h3 h4 h5 h6 h7
  cases hx : env.llm lc <;>
    simp [contentAgentRun, generateContentNode, hx, World.core,
      searchWebNode_pubIndep]

theorem planTaskNode_pubIndep (w w' : World) (env : Env) (p : Nat → Bool)
    (h : w.core = w'.core) :
    (planTaskNode w { env with publishOk := p }).1 =
      (planTaskNode w' env).1 ∧
    (planTaskNode w { env with publishOk := p }).2.core =
      (planTaskNode w' env).2.core := by
  obtain ⟨tk, ar, ms, ss, pb, ck, lc, pc⟩ := w
  obtain ⟨tk', ar', ms', ss', pb', ck', lc', pc'⟩ := w'
  obtain ⟨h1, h2, h3, h4, h5, h6, h7⟩ := core_eq_iff.mp h
  dsimp only at h1 h2 h3 h4 h5 h6 h7
  subst h1 h2 h3 h4 h5 h6 h7
  cases hx : env.llm lc with
  | error e => simp [planTaskNode, hx, World.core]
  | ok r =>
    cases hy : env.pyLoads r.content with
    | none => simp [planTaskNode, hx, hy, World.core]
    | some j => cases j <;> simp [planTaskNode, hx, hy, World.core]

theorem generateCodeNode_pubIndep (w w' : World) (env : Env) (p : Nat → Bool)
    (plan : CodeTaskPlan) (h : w.core = w'.core) :
    (generateCodeNode w { env with publishOk := p } plan).1 =
      (generateCodeNode w' env plan).1 ∧
    (generateCodeNode w { env with publishOk := p } plan).2.core =
      (generateCodeNode w' env plan).2.core := by
  obtain ⟨tk, ar, ms, ss, pb, ck, lc, pc⟩ := w
  obtain ⟨tk', ar', ms', ss', pb', ck', lc', pc'⟩ := w'
  obtain ⟨h1, h2, h3, h4, h5, h6, h7⟩ := core_eq_iff.mp h
  dsimp only at h1 h2 h3 h4 h5 h6 h7
  subst h1 h2 h3 h4 h5 h6 h7
  cases hx : env.llm lc with
  | error e => simp [generateCodeNode, hx, World.core]
  | ok r =>
    cases hy : env.pyLoads r.content with
    | none => simp [generateCodeNode, hx, hy, World.core]
    | some j => cases j <;> simp [generateCodeNode, hx, hy, World.core]

theorem codeAgentRun_pubIndep (w w' : World) (env : Env) (p : Nat → Bool)
    (task : Task) (h : w.core = w'.core) :
    (codeAgentRun w { env with publishOk := p } task).1 =
      (codeAgentRun w' env task).1 ∧
    (codeAgentRun w { env with publishOk := p } task).2.core =
      (codeAgentRun w' env task).2.core := by
  obtain ⟨tk, ar, ms, ss, pb, ck, lc, pc⟩ := w
  obtain ⟨tk', ar', ms', ss', pb', ck', lc', pc'⟩ := w'
  obtain ⟨h1, h2, h3, h4, h5, h6, h7⟩ := core_eq_iff.mp h
  dsimp only at h1 h2 h3 h4 h5 h6 h7
  subst h1 h2 h3 h4 h5 h6 h7
  cases hx : env.llm lc with
  | error e => simp [codeAgentRun, planTaskNode, hx, World.core]
  | ok r =>
    have hgen : ∀ plan : CodeTaskPlan,
        (generateCodeNode ⟨tk, ar, ms, ss, pb, ck, lc + 1, pc⟩
          { env with publishOk := p } plan).1 =
          (generateCodeNode ⟨tk, ar, ms, ss, pb', ck, lc + 1, pc⟩ env plan).1 ∧
        (generateCodeNode ⟨tk, ar, ms, ss, pb, ck, lc + 1, pc⟩
          { env with publishOk := p } plan).2.core =
          (generateCodeNode ⟨tk, ar, ms, ss, pb', ck, lc + 1, pc⟩ env
            plan).2.core := by
      intro plan
      exact generateCodeNode_pubIndep _ _ env p plan (by simp [World.core])
    cases hy : env.pyLoads r.content with
    | none =>
      obtain ⟨hg1, hg2⟩ := hgen fallbackPlan
      rcases hC : generateCodeNode ⟨tk, ar, ms, ss, pb, ck, lc + 1, pc⟩
        { env with publishOk := p } fallbackPlan with ⟨r1, w1⟩
      rcases hD : generateCodeNode ⟨tk, ar, ms, ss, pb', ck, lc + 1, pc⟩ env
        fallbackPlan with ⟨r2, w2⟩
      rw [hC, hD] at hg1 hg2
      dsimp only at hg1 hg2
      subst hg1
      simp only [codeAgentRun, planTaskNode, hx, hy]
      rw [hC, hD]
      cases r1 with
      | error e => exact ⟨rfl, hg2⟩
      | ok gr =>
        obtain ⟨artifact, gu⟩ := gr
        exact ⟨rfl, hg2⟩
    | some j =>
      cases j with
      | null => simp [codeAgentRun, planTaskNode, hx, hy, World.core]
      | bool b => simp [codeAgentRun, planTaskNode, hx, hy, World.core]
      | num q => simp [codeAgentRun, planTaskNode, hx, hy, World.core]
      | str s => simp [codeAgentRun, planTaskNode, hx, hy, World.core]
      | arr l => simp [codeAgentRun, planTaskNode, hx, hy, World.core]
      | obj fields =>
        obtain ⟨hg1, hg2⟩ := hgen (coercePlan fields)
        rcases hC : generateCodeNode ⟨tk, ar, ms, ss, pb, ck, lc + 1, pc⟩
          { env with publishOk := p } (coercePlan fields) with ⟨r1, w1⟩
        rcases hD : generateCodeNode ⟨tk, ar, ms, ss, pb', ck, lc + 1, pc⟩ env
          (coercePlan fields) with ⟨r2, w2⟩
        rw [hC, hD] at hg1 hg2
        dsimp only at hg1 hg2
        subst hg1
        simp only [codeAgentRun, planTaskNode, hx, hy]
        rw [hC, hD]
        cases r1 with
        | error e => exact ⟨rfl, hg2⟩
        | ok gr =>
          obtain ⟨artifact, gu⟩ := gr
          exact ⟨rfl, hg2⟩

theorem executeAgentNode_pubIndep (w w' : World) (env : Env) (p : Nat → Bool)
    (task : Task) (c : TaskClassification) (h : w.core = w'.core) :
    (executeAgentNode w { env with publishOk := p } task c).1 =
      (executeAgentNode w' env task c).1 ∧
    (executeAgentNode w { env with publishOk := p } task c).2.core =
      (executeAgentNode w' env task c).2.core := by
  unfold executeAgentNode
  by_cases hc1 : c.agent_name = "ContentAgent"
  · rw [if_pos hc1, if_pos hc1]
    exact contentAgentRun_pubIndep w w' env p task h
  · rw [if_neg hc1, if_neg hc1]
    by_cases hc2 : c.agent_name = "CodeAgent"
    · rw [if_pos hc2, if_pos hc2]
      exact codeAgentRun_pubIndep w w' env p task h
    · rw [if_neg hc2, if_neg hc2]
      exact ⟨rfl, h⟩

theorem peerRouterRun_pubIndep (w w' : World) (env : Env) (p : Nat → Bool)
    (task : Task) (h : w.core = w'.core) :
    (peerRouterRun w { env with publishOk := p } task).1 =
      (peerRouterRun w' env task).1 ∧
    (peerRouterRun w { env with publishOk := p } task).2.core =
      (peerRouterRun w' env task).2.core := by
  have hc := classifyTaskNode_pubIndep w w' env p task h
  rcases hA : classifyTaskNode w { env with publishOk := p } task with ⟨r1, w1⟩
  rcases hB : classifyTaskNode w' env task with ⟨r2, w2⟩
  rw [hA, hB] at hc
  obtain ⟨hr, hcw⟩ := hc
  dsimp only at hr hcw
  subst hr
  unfold peerRouterRun
  rw [hA, hB]
  cases r1 with
  | error e => exact ⟨rfl, hcw⟩
  | ok c =>
    dsimp only
    cases hroute : routeToAgentNode c with
    | error e => exact ⟨rfl, hcw⟩
    | ok u =>
      dsimp only
      have he := executeAgentNode_pubIndep w1 w2 env p task c hcw
      rcases hC : executeAgentNode w1 { env with publishOk := p } task c with
        ⟨r3, w3⟩
      rcases hD : executeAgentNode w2 env task c with ⟨r4, w4⟩
      rw [hC, hD] at he
      obtain ⟨hr2, hcw2⟩ := he
      dsimp only at hr2 hcw2
      subst hr2
      cases r3 <;> exact ⟨rfl, hcw2⟩

theorem orchestrationRunPeerAgent_pubIndep (w w' : World) (env : Env)
    (p : Nat → Bool) (task : Task) (h : w.core = w'.core) :
    (orchestrationRunPeerAgent w { env with publishOk := p } task).1 =
      (orchestrationRunPeerAgent w' env task).1 ∧
    (orchestrationRunPeerAgent w { env with publishOk := p } task).2.core =
      (orchestrationRunPeerAgent w' env task).2.core := by
  have hc := peerRouterRun_pubIndep w w' env p task h
  rcases hA : peerRouterRun w { env with publishOk := p } task with ⟨r1, w1⟩
  rcases hB : peerRouterRun w' env task with ⟨r2, w2⟩
  rw [hA, hB] at hc
  obtain ⟨hr, hcw⟩ := hc
  dsimp only at hr hcw
  subst hr
  unfold orchestrationRunPeerAgent
  rw [hA, hB]
  rcases r1 with e | r
  · cases e <;> exact ⟨rfl, hcw⟩
  · exact ⟨rfl, hcw⟩

theorem processTaskHandleExc_pubIndep (w w' : World) (env : Env)
    (p : Nat → Bool) (task : Task) (e : PyErr) (h : w.core = w'.core) :
    (processTaskHandleExc w { env with publishOk := p } task e).1 =
      (processTaskHandleExc w' env task e).1 ∧
    (processTaskHandleExc w { env with publishOk := p } task e).2.core =
      (processTaskHandleExc w' env task e).2.core := by
  unfold processTaskHandleExc
  cases e with
  | unknownTaskType m =>
    dsimp only
    have hm := markFailed_pubIndep w w' env p task "UNKNOWN_TASK_TYPE" m none h
    rcases hC : markFailed w { env with publishOk := p } task "UNKNOWN_TASK_TYPE" m none with
      ⟨r1, w1⟩
    rcases hD : markFailed w' env task "UNKNOWN_TASK_TYPE" m none with ⟨r2, w2⟩
    rw [hC, hD] at hm
    obtain ⟨hr, hcw⟩ := hm
    dsimp only at hr hcw
    subst hr
    cases r1 <;> exact ⟨rfl, hcw⟩
  | llmError m =>
    dsimp only
    have hm := markFailed_pubIndep w w' env p task "LLMError" m (some "traceback") h
    rcases hC : markFailed w { env with publishOk := p } task "LLMError" m (some "traceback") with
      ⟨r1, w1⟩
    rcases hD : markFailed w' env task "LLMError" m (some "traceback") with ⟨r2, w2⟩
    rw [hC, hD] at hm
    obtain ⟨hr, hcw⟩ := hm
    dsimp only at hr hcw
    subst hr
    simp only [PyErr.className, PyErr.msgStr]
    rw [hC, hD]
    cases r1 <;> exact ⟨rfl, hcw⟩
  | runtimeError m =>
    dsimp only
    have hm := markFailed_pubIndep w w' env p task "RuntimeError" m (some "traceback") h
    rcases hC : markFailed w { env with publishOk := p } task "RuntimeError" m (some "traceback") with
      ⟨r1, w1⟩
    rcases hD : markFailed w' env task "RuntimeError" m (some "traceback") with ⟨r2, w2⟩
    rw [hC, hD] at hm
    obtain ⟨hr, hcw⟩ := hm
    dsimp only at hr hcw
    subst hr
    simp only [PyErr.className, PyErr.msgStr]
    rw [hC, hD]
    cases r1 <;> exact ⟨rfl, hcw⟩
  | attributeError m =>
    dsimp only
    have hm := markFailed_pubIndep w w' env p task "AttributeError" m (some "traceback") h
    rcases hC : markFailed w { env with publishOk := p } task "AttributeError" m (some "traceback") with
      ⟨r1, w1⟩
    rcases hD : markFailed w' env task "AttributeError" m (some "traceback") with ⟨r2, w2⟩
    rw [hC, hD] at hm
    obtain ⟨hr, hcw⟩ := hm
    dsimp only at hr hcw
    subst hr
    simp only [PyErr.className, PyErr.msgStr]
    rw [hC, hD]
    cases r1 <;> exact ⟨rfl, hcw⟩
  | typeError m =>
    dsimp only
    have hm := markFailed_pubIndep w w' env p task "TypeError" m (some "traceback") h
    rcases hC : markFailed w { env with publishOk := p } task "TypeError" m (some "traceback") with
      ⟨r1, w1⟩
    rcases hD : markFailed w' env task "TypeError" m (some "traceback") with ⟨r2, w2⟩
    rw [hC, hD] at hm
    obtain ⟨hr, hcw⟩ := hm
    dsimp only at hr hcw
    subst hr
    simp only [PyErr.className, PyErr.msgStr]
    rw [hC, hD]
    cases r1 <;> exact ⟨rfl, hcw⟩
  | valueError m =>
    dsimp only
    have hm := markFailed_pubIndep w w' env p task "ValueError" m (some "traceback") h
    rcases hC : markFailed w { env with publishOk := p } task "ValueError" m (some "traceback") with
      ⟨r1, w1⟩
    rcases hD : markFailed w' env task "ValueError" m (some "traceback") with ⟨r2, w2⟩
    rw [hC, hD] at hm
    obtain ⟨hr, hcw⟩ := hm
    dsimp only at hr hcw
    subst hr
    simp only [PyErr.className, PyErr.msgStr]
    rw [hC, hD]
    cases r1 <;> exact ⟨rfl, hcw⟩
  | keyError m =>
    dsimp only
    have hm := markFailed_pubIndep w w' env p task "KeyError" m (some "traceback") h
    rcases hC : markFailed w { env with publishOk := p } task "KeyError" m (some "traceback") with
      ⟨r1, w1⟩
    rcases hD : markFailed w' env task "KeyError" m (some "traceback") with ⟨r2, w2⟩
    rw [hC, hD] at hm
    obtain ⟨hr, hcw⟩ := hm
    dsimp only at hr hcw
    subst hr
    simp only [PyErr.className, PyErr.msgStr]
    rw [hC, hD]
    cases r1 <;> exact ⟨rfl, hcw⟩
  | infra cn m =>
    dsimp only
    have hm := markFailed_pubIndep w w' env p task cn m (some "traceback") h
    rcases hC : markFailed w { env with publishOk := p } task cn m
      (some "traceback") with ⟨r1, w1⟩
    rcases hD : markFailed w' env task cn m (some "traceback") with ⟨r2, w2⟩
    rw [hC, hD] at hm
    obtain ⟨hr, hcw⟩ := hm
    dsimp only at hr hcw
    subst hr
    simp only [PyErr.className, PyErr.msgStr]
    rw [hC, hD]
    cases r1 <;> exact ⟨rfl, hcw⟩

theorem processTaskAsync_pubIndep (w w' : World) (env : Env) (p : Nat → Bool)
    (tid : String) (h : w.core = w'.core) :
    (processTaskAsync w { env with publishOk := p } tid).1 =
      (processTaskAsync w' env tid).1 ∧
    (processTaskAsync w { env with publishOk := p } tid).2.core =
      (processTaskAsync w' env tid).2.core := by
  obtain ⟨tk, ar, ms, ss, pb, ck, lc, pc⟩ := w
  obtain ⟨tk', ar', ms', ss', pb', ck', lc', pc'⟩ := w'
  obtain ⟨h1, h2, h3, h4, h5, h6, h7⟩ := core_eq_iff.mp h
  dsimp only at h1 h2 h3 h4 h5 h6 h7
  subst h1 h2 h3 h4 h5 h6 h7
  cases hf : findTask tk tid with
  | none => simp [processTaskAsync, hf, World.core]
  | some task =>
    have hm := markProcessing_pubIndep ⟨tk, ar, ms, ss, pb, ck, lc, pc⟩
      ⟨tk, ar, ms, ss, pb', ck, lc, pc⟩ env p tid (by simp [World.core])
    rcases hA : markProcessing ⟨tk, ar, ms, ss, pb, ck, lc, pc⟩
      { env with publishOk := p } tid with ⟨o1, w1⟩
    rcases hB : markProcessing ⟨tk, ar, ms, ss, pb', ck, lc, pc⟩ env tid with
      ⟨o2, w2⟩
    rw [hA, hB] at hm
    obtain ⟨ho, hcw1⟩ := hm
    dsimp only at ho hcw1
    simp only [processTaskAsync]
    rw [hf]
    dsimp only
    rw [hA, hB]
    dsimp only
    have horc := orchestrationRunPeerAgent_pubIndep w1 w2 env p task hcw1
    rcases hC : orchestrationRunPeerAgent w1 { env with publishOk := p } task
      with ⟨r1, w3⟩
    rcases hD : orchestrationRunPeerAgent w2 env task with ⟨r2, w4⟩
    rw [hC, hD] at horc
    obtain ⟨hr, hcw2⟩ := horc
    dsimp only at hr hcw2
    subst hr
    cases r1 with
    | error e => exact processTaskHandleExc_pubIndep w3 w4 env p task e hcw2
    | ok pr =>
      obtain ⟨output, classification⟩ := pr
      dsimp only
      have hmc := markCompleted_pubIndep w3 w4 env p task
        { selected_agent := output.agent_name
          agent_type := classification.agent_type
          peer_reason := classification.reasoning
          content := output.content
          code_language := output.code_language
          citations := output.citations
          prompt_tokens := 0
          completion_tokens := 0
          model := "" } hcw2
      rcases hE : markCompleted w3 { env with publishOk := p } task
        { selected_agent := output.agent_name
          agent_type := classification.agent_type
          peer_reason := classification.reasoning
          content := output.content
          code_language := output.code_language
          citations := output.citations
          prompt_tokens := 0
          completion_tokens := 0
          model := "" } with ⟨r3, w5⟩
      rcases hF : markCompleted w4 env task
        { selected_agent := output.agent_name
          agent_type := classification.agent_type
          peer_reason := classification.reasoning
          content := output.content
          code_language := output.code_language
          citations := output.citations
          prompt_tokens := 0
          completion_tokens := 0
          model := "" } with ⟨r4, w6⟩
      rw [hE, hF] at hmc
      obtain ⟨hr3, hcw3⟩ := hmc
      dsimp only at hr3 hcw3
      subst hr3
      cases r3 with
      | error e => exact processTaskHandleExc_pubIndep w5 w6 env p task e hcw3
      | ok tdone =>
        dsimp only
        cases hs : task.session_id with
        | none => exact ⟨rfl, hcw3⟩
        | some sid =>
          dsimp only
          by_cases hsid : sid = ""
          · rw [if_neg (by simp [hsid]), if_neg (by simp [hsid])]
            exact ⟨rfl, hcw3⟩
          · rw [if_pos (by exact hsid : ¬ sid = ""),
              if_pos (by exact hsid : ¬ sid = "")]
            exact ⟨rfl, sessionUpdateLastTask_pubIndep w5 w6 sid task.task_id
              hcw3⟩

/-- C9: an event-publish failure is swallowed inside
`TaskService._publish_event` — the call raises nothing and touches no
durable store — and the worker invocation's outcome and final task store
are identical under every behaviour of the publish transport: publish
failures never fail the task and never change a durable status
transition. -/
theorem claim_C9 (w : World) (env : Env) (tid : String) (p : Nat → Bool)
    (payload : EventPayload) :
    (publishEvent w env tid payload).1 = .ok () ∧
    (publishEvent w env tid payload).2.tasks = w.tasks ∧
    (publishEvent w env tid payload).2.messages = w.messages ∧
    (publishEvent w env tid payload).2.agentRuns = w.agentRuns ∧
    (processTaskAsync w { env with publishOk := p } tid).1 =
      (processTaskAsync w env tid).1 ∧
    (processTaskAsync w { env with publishOk := p } tid).2.tasks =
      (processTaskAsync w env tid).2.tasks := by
  obtain ⟨hres, hcore⟩ := processTaskAsync_pubIndep w w env p tid rfl
  have htasks := (core_eq_iff.mp hcore).1
  refine ⟨?_, ?_, ?_, ?_, hres, htasks⟩ <;>
    (unfold publishEvent redisPublish
     cases hp : env.publishOk w.pubCount <;> simp [hp])

end AOrch
